import Mathlib

/-!
Subscription plans and quotas: a shallow embedding

The development follows two source files.

* `db/userplans.go`: the queries `GetActiveUserPlan`, `SetActiveUserPlan`,
  `UserHasActivePlan`, `UserOnPlan` and `UserPlanQuotas`.  Tables are lists of rows in
  insertion order; a query is the list pipeline join / where / order / limit / select that
  its goqu expression denotes.  A statement that fails does so as a whole, and whether it
  fails is an input of the operation.
* `app/quotas.go`: the request handler `AddQuotaHandler`, over an abstract ledger and an
  abstract reply channel, with the calls to the reply channel recorded in a trace.

`time.Now().AddDate(1, 0, 0)` is evaluated with the calendar algorithms of Go's `time`
package in the location of the process, without the 64-bit wrap-around of its counters.

Conventions: the qualified column references of a join condition are resolved against the
tables of its FROM clause; the aliases of a select list are taken to name the fields of the
struct scanned into, whose declaration is not part of the two files.  Quota values are
carried as exact rationals: no arithmetic is ever performed on them.
-/

namespace Subscriptions

/-! ## Calendar arithmetic of package `time` -/

/-- An instant: nanoseconds since the absolute epoch of package `time` (1 January of
`absoluteZeroYear`, UTC). -/
abbrev Time := Nat

/-- Seconds in a minute. -/
def secondsPerMinute : Nat := 60
/-- Seconds in an hour. -/
def secondsPerHour : Nat := 60 * secondsPerMinute
/-- Seconds in a day. -/
def secondsPerDay : Nat := 24 * secondsPerHour
/-- Days in a 400-year cycle. -/
def daysPer400Years : Nat := 365 * 400 + 97
/-- Days in a 100-year cycle that does not end a 400-year cycle. -/
def daysPer100Years : Nat := 365 * 100 + 24
/-- Days in a 4-year cycle that contains a leap year. -/
def daysPer4Years : Nat := 365 * 4 + 1
/-- Year at which the absolute epoch starts; it is 1 modulo 400. -/
def absoluteZeroYear : Int := -292277022399

/-- Gregorian leap-year test (divisibility tests only, so the rounding of `%` is immaterial). -/
def isLeap (year : Int) : Bool :=
  year % 4 == 0 && (year % 100 != 0 || year % 400 == 0)

/-- Entry `m` is the number of days in a non-leap year before month `m + 1` starts. -/
def daysBefore : Nat → Nat
  | 0 => 0
  | 1 => 31
  | 2 => 31 + 28
  | 3 => 31 + 28 + 31
  | 4 => 31 + 28 + 31 + 30
  | 5 => 31 + 28 + 31 + 30 + 31
  | 6 => 31 + 28 + 31 + 30 + 31 + 30
  | 7 => 31 + 28 + 31 + 30 + 31 + 30 + 31
  | 8 => 31 + 28 + 31 + 30 + 31 + 30 + 31 + 31
  | 9 => 31 + 28 + 31 + 30 + 31 + 30 + 31 + 31 + 30
  | 10 => 31 + 28 + 31 + 30 + 31 + 30 + 31 + 31 + 30 + 31
  | 11 => 31 + 28 + 31 + 30 + 31 + 30 + 31 + 31 + 30 + 31 + 30
  | _ => 31 + 28 + 31 + 30 + 31 + 30 + 31 + 31 + 30 + 31 + 30 + 31

/-- Days from the absolute epoch to the start of `year`. -/
def daysSinceEpoch (year : Int) : Nat :=
  let y := (year - absoluteZeroYear).toNat
  let n := y / 400
  let y := y - 400 * n
  let d := daysPer400Years * n
  let n := y / 100
  let y := y - 100 * n
  let d := d + daysPer100Years * n
  let n := y / 4
  let y := y - 4 * n
  let d := d + daysPer4Years * n
  let n := y
  d + 365 * n

/-- First half of `absDate`: the year of an absolute time and the day within that year. -/
def absYear (abs : Nat) : Int × Nat :=
  let d := abs / secondsPerDay
  let n := d / daysPer400Years
  let y := 400 * n
  let d := d - daysPer400Years * n
  let n := d / daysPer100Years
  let n := n - n / 4
  let y := y + 100 * n
  let d := d - daysPer100Years * n
  let n := d / daysPer4Years
  let y := y + 4 * n
  let d := d - daysPer4Years * n
  let n := d / 365
  let n := n - n / 4
  let y := y + n
  let d := d - 365 * n
  ((y : Int) + absoluteZeroYear, d)

/-- Civil date (year, month, day) of an absolute time in seconds. -/
def absDate (abs : Nat) : Int × Nat × Nat :=
  let (year, yday) := absYear abs
  let day := yday
  if isLeap year && day == 31 + 29 - 1 then
    (year, 2, 29)
  else
    let day := if isLeap year && day > 31 + 29 - 1 then day - 1 else day
    let month := day / 31
    let e := daysBefore (month + 1)
    let (month, begin) := if day ≥ e then (month + 1, e) else (month, daysBefore month)
    (year, month + 1, day - begin + 1)

/-- Clock reading (hour, minute, second) of an absolute time in seconds. -/
def absClock (abs : Nat) : Nat × Nat × Nat :=
  let sec := abs % secondsPerDay
  let hour := sec / secondsPerHour
  let sec := sec - hour * secondsPerHour
  let min := sec / secondsPerMinute
  let sec := sec - min * secondsPerMinute
  (hour, min, sec)

/-- Carry `lo` into `hi` so that `0 ≤ lo < base`; the quotients are of non-negative numbers. -/
def norm (hi lo base : Int) : Int × Int :=
  let (hi, lo) :=
    if lo < 0 then
      let n := (-lo - 1) / base + 1
      (hi - n, lo + n * base)
    else (hi, lo)
  if lo ≥ base then
    let n := lo / base
    (hi + n, lo - n * base)
  else (hi, lo)

/-- Seconds from the Unix epoch (1 January 1970) back to 1 January of year 1. -/
def unixToInternal : Nat := 62135596800

/-- Seconds from 1 January of year 1 back to the absolute epoch. -/
def internalToAbsolute : Nat := 9223371966579724800

/-- A time zone as `Location.lookup` presents it: for a Unix time in seconds, the offset in
seconds east of UTC in force at that time and the Unix times at which that offset starts and
stops being in force. -/
structure Location where
  lookup : Int → Int × Int × Int

/-- The location `time.UTC`: offset zero at all times. -/
def UTC : Location :=
  { lookup := fun _ => (0, -9223372036854775808, 9223372036854775807) }

/-- The instant `time.Date(year, month, day, hour, min, sec, nsec, loc)`: the civil time is
first read as UTC and then moved by the offset the location has around it. -/
def DateIn (loc : Location) (year month day hour min sec nsec : Int) : Time :=
  let m := month - 1
  let (year, m) := norm year m 12
  let month := m + 1
  let (sec, nsec) := norm sec nsec 1000000000
  let (min, sec) := norm min sec 60
  let (hour, min) := norm hour min 60
  let (day, hour) := norm day hour 24
  let d : Int := daysSinceEpoch year
  let d := d + daysBefore (month - 1).toNat
  let d := if isLeap year && month ≥ 3 then d + 1 else d
  let d := d + (day - 1)
  let abs := d * secondsPerDay
  let abs := abs + (hour * secondsPerHour + min * secondsPerMinute + sec)
  let unix := abs - ((unixToInternal + internalToAbsolute : Nat) : Int)
  let zone := loc.lookup unix
  let unix :=
    if zone.1 ≠ 0 then
      let utc := unix - zone.1
      let offset := if utc < zone.2.1 ∨ utc ≥ zone.2.2 then (loc.lookup utc).1 else zone.1
      unix - offset
    else unix
  ((unix + ((unixToInternal + internalToAbsolute : Nat) : Int)) * 1000000000 + nsec).toNat

/-- The instant `time.Date(year, month, day, hour, min, sec, nsec, time.UTC)`. -/
def Date (year month day hour min sec nsec : Int) : Time :=
  DateIn UTC year month day hour min sec nsec

/-- Seconds since the Unix epoch. -/
def Time.unixSec (t : Time) : Int :=
  ((t / 1000000000 : Nat) : Int) - ((unixToInternal + internalToAbsolute : Nat) : Int)

/-- Seconds since the absolute epoch of the civil time that `t` shows in `loc` (the method
`abs` of a `Time` whose location is `loc`). -/
def Time.abs (t : Time) (loc : Location) : Nat :=
  (t.unixSec + (loc.lookup t.unixSec).1 +
    ((unixToInternal + internalToAbsolute : Nat) : Int)).toNat

/-- Nanoseconds within the second. -/
def Time.nsec (t : Time) : Nat := t % 1000000000

/-- The instant `t.AddDate(years, months, days)` for a `Time` whose location is `loc`. -/
def AddDate (loc : Location) (t : Time) (years months days : Int) : Time :=
  let (year, month, day) := absDate (t.abs loc)
  let (hour, min, sec) := absClock (t.abs loc)
  DateIn loc (year + years) (month + months) (day + days) hour min sec t.nsec

/-- Zero value of `time.Time`: 1 January of year 1, 00:00:00 UTC. -/
def zeroTime : Time := internalToAbsolute * 1000000000

/-! ## SQL values and three-valued conditions -/

/-- Value of a quota column or message field. -/
abbrev QuotaValue := ℚ

/-- Truth value of an SQL condition; `none` is NULL. -/
abbrev SqlBool := Option Bool

/-- SQL `AND`. -/
def sqlAnd : SqlBool → SqlBool → SqlBool
  | some false, _ => some false
  | _, some false => some false
  | some true, some true => some true
  | _, _ => none

/-- SQL `OR`. -/
def sqlOr : SqlBool → SqlBool → SqlBool
  | some true, _ => some true
  | _, some true => some true
  | some false, some false => some false
  | _, _ => none

/-- SQL `a >= b` on nullable timestamps. -/
def sqlGte : Option Time → Option Time → SqlBool
  | some a, some b => some (decide (b ≤ a))
  | _, _ => none

/-- SQL `a <= b` on nullable timestamps. -/
def sqlLte : Option Time → Option Time → SqlBool
  | some a, some b => some (decide (a ≤ b))
  | _, _ => none

/-- SQL `a > b` on nullable timestamps (`Gt`). -/
def sqlGt : Option Time → Option Time → SqlBool
  | some a, some b => some (decide (b < a))
  | _, _ => none

/-- SQL `x BETWEEN lo AND hi`, that is `x >= lo AND x <= hi` (`Between (Range lo hi)`). -/
def sqlBetween (x lo hi : Option Time) : SqlBool :=
  sqlAnd (sqlGte x lo) (sqlLte x hi)

/-- SQL `a IS NULL` (`Is nil`). -/
def sqlIsNull (a : Option Time) : SqlBool :=
  some a.isNone

/-- SQL `a = b` on non-null text (`Eq`). -/
def sqlEq (a b : String) : SqlBool :=
  some (decide (a = b))

/-- A `WHERE` clause keeps the rows on which the condition is true (not false, not NULL). -/
def sqlHolds (c : SqlBool) : Bool :=
  c == some true

/-! ## Tables -/

/-- Row of `users`. -/
structure UserRow where
  id : String
  username : String
  deriving DecidableEq, Repr

/-- Row of `plans`. -/
structure PlanRow where
  id : String
  name : String
  description : String
  deriving DecidableEq, Repr

/-- Row of `resource_types`. -/
structure ResourceTypeRow where
  id : String
  name : String
  unit : String
  deriving DecidableEq, Repr

/-- Row of `plan_quota_defaults`. -/
structure PlanQuotaDefaultRow where
  id : String
  plan_id : String
  resource_type_id : String
  quota_value : QuotaValue
  deriving DecidableEq, Repr

/-- Row of `user_plans`; only `effective_end_date` is nullable. -/
structure UserPlanRow where
  id : String
  effective_start_date : Time
  effective_end_date : Option Time
  user_id : String
  plan_id : String
  created_by : String
  created_at : Time
  last_modified_by : String
  last_modified_at : Time
  deriving DecidableEq, Repr

/-- Row of `quotas`. -/
structure QuotaRow where
  id : String
  resource_type_id : String
  user_plan_id : String
  quota : QuotaValue
  created_by : String
  created_at : Time
  last_modified_by : String
  last_modified_at : Time
  deriving DecidableEq, Repr

/-- Contents of the tables as seen through the handle (`GoquDatabase`) a query runs on. -/
structure Database where
  users : List UserRow
  plans : List PlanRow
  resource_types : List ResourceTypeRow
  plan_quota_defaults : List PlanQuotaDefaultRow
  user_plans : List UserPlanRow
  quotas : List QuotaRow
  deriving DecidableEq, Repr

/-- A failed statement or call. -/
structure Error where
  message : String
  deriving DecidableEq, Repr

/-! ## Scanned structs of package `db` -/

/-- Fields of `User` filled by the queries below. -/
structure User where
  ID : String
  Username : String
  deriving DecidableEq, Repr

/-- Fields of `Plan` filled by the queries below. -/
structure Plan where
  ID : String
  Name : String
  Description : String
  deriving DecidableEq, Repr

/-- Fields of `ResourceType` filled by the queries below. -/
structure ResourceType where
  ID : String
  Name : String
  Unit : String
  deriving DecidableEq, Repr

/-- The struct `GetActiveUserPlan` scans into. -/
structure UserPlan where
  ID : String
  EffectiveStartDate : Time
  EffectiveEndDate : Option Time
  CreatedBy : String
  CreatedAt : Time
  LastModifiedBy : String
  LastModifiedAt : Time
  User : User
  Plan : Plan
  deriving DecidableEq, Repr

/-- The struct `UserPlanQuotas` scans into. -/
structure Quota where
  ID : String
  Quota : QuotaValue
  CreatedBy : String
  CreatedAt : Time
  LastModifiedBy : String
  LastModifiedAt : Time
  ResourceType : ResourceType
  deriving DecidableEq, Repr

/-- Zero value of `UserPlan`, the content of `var result UserPlan`. -/
def UserPlan.zero : UserPlan :=
  { ID := "", EffectiveStartDate := zeroTime, EffectiveEndDate := none, CreatedBy := "",
    CreatedAt := zeroTime, LastModifiedBy := "", LastModifiedAt := zeroTime,
    User := { ID := "", Username := "" }, Plan := { ID := "", Name := "", Description := "" } }

/-! ## `GetActiveUserPlan` -/

/-- Join `From(t.UserPlans).Join(t.Users, On(user_plans.user_id = users.id))`. -/
def joinUsers (db : Database) : List (UserPlanRow × UserRow) :=
  db.user_plans.flatMap fun up =>
    (db.users.filter fun u => up.user_id = u.id).map fun u => (up, u)

/-- Join `From(t.UserPlans).Join(t.Users, ...).Join(t.Plans, On(user_plans.plan_id = plans.id))`. -/
def joinUsersPlans (db : Database) : List (UserPlanRow × UserRow × PlanRow) :=
  (joinUsers db).flatMap fun r =>
    (db.plans.filter fun p => r.1.plan_id = p.id).map fun p => (r.1, r.2, p)

/-- The disjunction under `Where` in `GetActiveUserPlan`:
`CURRENT_TIMESTAMP BETWEEN start AND end OR (CURRENT_TIMESTAMP > start AND end IS NULL)`. -/
def windowCondition (currTS : Time) (up : UserPlanRow) : SqlBool :=
  sqlOr
    (sqlBetween (some currTS) (some up.effective_start_date) up.effective_end_date)
    (sqlAnd (sqlGt (some currTS) (some up.effective_start_date))
      (sqlIsNull up.effective_end_date))

/-- The whole `Where` condition of `GetActiveUserPlan`. -/
def activeCondition (currTS : Time) (username : String)
    (r : UserPlanRow × UserRow × PlanRow) : SqlBool :=
  sqlAnd (sqlEq r.2.1.username username) (windowCondition currTS r.1)

/-- The `Select` list of `GetActiveUserPlan`. -/
def selectUserPlan (r : UserPlanRow × UserRow × PlanRow) : UserPlan :=
  { ID := r.1.id
    EffectiveStartDate := r.1.effective_start_date
    EffectiveEndDate := r.1.effective_end_date
    CreatedBy := r.1.created_by
    CreatedAt := r.1.created_at
    LastModifiedBy := r.1.last_modified_by
    LastModifiedAt := r.1.last_modified_at
    User := { ID := r.2.1.id, Username := r.2.1.username }
    Plan := { ID := r.2.2.id, Name := r.2.2.name, Description := r.2.2.description } }

/-- Rows of the query of `GetActiveUserPlan` before `Order` and `Limit`: the candidates. -/
def activeCandidates (db : Database) (currTS : Time) (username : String) : List UserPlan :=
  ((joinUsersPlans db).filter fun r => sqlHolds (activeCondition currTS username r)).map
    selectUserPlan

/-- Clause `Order(effStartDate.Desc())`; rows with equal start dates keep their table order. -/
def orderByStartDesc (rows : List UserPlan) : List UserPlan :=
  rows.insertionSort fun a b => b.EffectiveStartDate ≤ a.EffectiveStartDate

/-- Rows that the query of `GetActiveUserPlan` yields: the candidates after
`Order(effStartDate.Desc()).Limit(1)`. -/
def activeUserPlanRows (db : Database) (currTS : Time) (username : String) : List UserPlan :=
  (orderByStartDesc (activeCandidates db currTS username)).take 1

/-- Method `ScanStructContext` of goqu: an execution error is returned as such; otherwise the
first row, if any, is stored in the destination and the flag tells whether there was one. -/
def ScanStructContext {α : Type} (execErr : Option Error) (rows : List α) (dest : α) :
    (Bool × Option Error) × α :=
  match execErr with
  | some err => ((false, some err), dest)
  | none =>
    match rows with
    | [] => ((false, none), dest)
    | r :: _ => ((true, none), r)

/-- Method `GetActiveUserPlan`; the pair is the Go result `(*UserPlan, error)`.  `currTS` is the
database's `CURRENT_TIMESTAMP`, `execErr` the outcome of running the statement. -/
def GetActiveUserPlan (db : Database) (currTS : Time) (execErr : Option Error)
    (username : String) : Option UserPlan × Option Error :=
  let result := UserPlan.zero
  let query := activeUserPlanRows db currTS username
  match ScanStructContext execErr query result with
  | ((_, some err), _) => (none, some err)
  | ((_, none), result) => (some result, none)

/-! ## `SetActiveUserPlan` -/

/-- What the surroundings supply to one call of `SetActiveUserPlan`. -/
structure Env where
  /-- Value of `time.Now()`. -/
  now : Time
  /-- Location of that value: the zone of the process, `time.Local`. -/
  location : Location
  /-- Database clock, the default of `created_at` and `last_modified_at`. -/
  currentTimestamp : Time
  /-- The id the database generates for the new `user_plans` row. -/
  newUserPlanID : String
  /-- The id the database generates for the i-th inserted `quotas` row. -/
  newQuotaID : Nat → String
  /-- Outcome of the `INSERT INTO user_plans` statement. -/
  insertUserPlanErr : Option Error
  /-- Outcome of the `INSERT INTO quotas ... SELECT` statement. -/
  insertQuotasErr : Option Error

/-- The `goqu.Record` inserted into `user_plans`. -/
def newUserPlanRow (env : Env) (n e : Time) (userID planID : String) : UserPlanRow :=
  { id := env.newUserPlanID
    effective_start_date := n
    effective_end_date := some e
    user_id := userID
    plan_id := planID
    created_by := "de"
    created_at := env.currentTimestamp
    last_modified_by := "de"
    last_modified_at := env.currentTimestamp }

/-- Dataset `From(t.PQD).Join(t.Plans, On(plan_quota_defaults.plan_id = plans.id))
.Where(plans.id = planID)`. -/
def planDefaults (db : Database) (planID : String) : List (PlanQuotaDefaultRow × PlanRow) :=
  (db.plan_quota_defaults.flatMap fun d =>
    (db.plans.filter fun p => d.plan_id = p.id).map fun p => (d, p)).filter
    fun r => r.2.id = planID

/-- Rows of the `FromQuery` sub-select, with the generated ids and column defaults. -/
def quotaRowsFromDefaults (env : Env) (db : Database) (userPlanID planID : String) :
    List QuotaRow :=
  (planDefaults db planID).enum.map fun ir =>
    { id := env.newQuotaID ir.1
      resource_type_id := ir.2.1.resource_type_id
      user_plan_id := userPlanID
      quota := ir.2.1.quota_value
      created_by := "de"
      created_at := env.currentTimestamp
      last_modified_by := "de"
      last_modified_at := env.currentTimestamp }

/-- What the pointer handed to a scan points to: one value, or a slice of values. -/
inductive ScanDest where
  | val (v : String)
  | vals (vs : List String)
  deriving DecidableEq, Repr

/-- The error of goqu for a `ScanVals` destination that is not a pointer to a slice. -/
def errUnsupportedScanValsType : Error :=
  { message := "type must be a pointer to a slice when scanning into vals" }

/-- Method `ScanValsContext` of goqu: the statement is run first, and an execution error is
returned as such; then the returned values are appended to the slice the destination points
to, and a destination that is not a pointer to a slice is refused with
`errUnsupportedScanValsType`. -/
def ScanValsContext (execErr : Option Error) (returned : List String) (dest : ScanDest) :
    Option Error × ScanDest :=
  match execErr with
  | some err => (some err, dest)
  | none =>
    match dest with
    | .vals vs => (none, .vals (vs ++ returned))
    | .val v => (some errUnsupportedScanValsType, .val v)

/-- Method `SetActiveUserPlan`; the first component is the Go result `(string, error)`, the
second the contents of the handle after the call.  The `INSERT ... RETURNING id` statement
is run by `ScanValsContext(ctx, &userPlanID)`, whose destination points to a `string`. -/
def SetActiveUserPlan (env : Env) (db : Database) (userID planID : String) :
    (String × Option Error) × Database :=
  let n := env.now
  let e := AddDate env.location n 1 0 0
  let inserted : Database :=
    match env.insertUserPlanErr with
    | some _ => db
    | none => { db with user_plans := db.user_plans ++ [newUserPlanRow env n e userID planID] }
  match ScanValsContext env.insertUserPlanErr [env.newUserPlanID] (.val "") with
  | (some err, _) => (("", some err), inserted)
  | (none, dest) =>
    let userPlanID :=
      match dest with
      | .val v => v
      | .vals _ => ""
    match env.insertQuotasErr with
    | some err => ((userPlanID, some err), inserted)
    | none =>
      ((userPlanID, none),
        { inserted with
          quotas := inserted.quotas ++ quotaRowsFromDefaults env inserted userPlanID planID })

/-! ## `UserHasActivePlan`, `UserOnPlan`, `UserPlanQuotas` -/

/-- Method `UserHasActivePlan`; the pair is the Go result `(bool, error)`. -/
def UserHasActivePlan (db : Database) (execErr : Option Error) (username : String) :
    Bool × Option Error :=
  match execErr with
  | some err => (false, some err)
  | none =>
    let numPlans := ((joinUsers db).filter fun r => r.2.username = username).length
    (decide (numPlans > 0), none)

/-- Method `UserOnPlan`; the pair is the Go result `(bool, error)`. -/
def UserOnPlan (db : Database) (execErr : Option Error) (username planName : String) :
    Bool × Option Error :=
  match execErr with
  | some err => (false, some err)
  | none =>
    let numPlans :=
      ((joinUsersPlans db).filter fun r =>
        r.2.1.username = username && r.2.2.name = planName).length
    (decide (numPlans > 0), none)

/-- A table expression: `goqu.T(table)`, or `goqu.S(schema).Table(table)`. -/
structure TableRef where
  schema : String
  table : String
  deriving DecidableEq, Repr

/-- A column reference: schema, table and column, the first two possibly empty. -/
structure Identifier where
  schema : String
  table : String
  col : String
  deriving DecidableEq, Repr

/-- Function `goqu.I` (`ParseIdentifier`) on a literal given by its dot-separated parts: two
parts are a table and a column, three are a schema, a table and a column, and anything else
is one bare column name. -/
def I (parts : List String) : Identifier :=
  match parts with
  | [table, col] => { schema := "", table := table, col := col }
  | [schema, table, col] => { schema := schema, table := table, col := col }
  | _ => { schema := "", table := "", col := String.intercalate "." parts }

/-- Whether a qualified column reference names the given table of the FROM clause: the table
names are equal, and the schema, when the reference has one, is that of the table. -/
def Identifier.refersTo (i : Identifier) (t : TableRef) : Bool :=
  decide (i.table = t.table) && (decide (i.schema = "") || decide (i.schema = t.schema))

namespace tables

/-- Modelled from the spec: the handle `t.Quotas` of package `tables` (not part of the two
files) for the table of the Quota rows of section 3, named as the sibling queries name their
tables (`usages`, `resource_types`, `plan_quota_defaults`, `user_plans`). -/
def Quotas : TableRef :=
  { schema := "", table := "quotas" }

/-- Modelled from the spec: the handle `t.RT` of package `tables` (not part of the two
files) for the table of the ResourceType rows of section 3, which the source names
`resource_types`. -/
def RT : TableRef :=
  { schema := "", table := "resource_types" }

end tables

/-- The text column that a qualified reference names in `From(t.Quotas).Join(t.RT, ...)`;
`none` when it names no table of the FROM clause or no text column of that table, in which
case the database rejects the statement. -/
def quotaJoinColumn (i : Identifier) : Option (QuotaRow × ResourceTypeRow → String) :=
  if i.refersTo tables.Quotas then
    if i.col = "id" then some fun r => r.1.id
    else if i.col = "resource_type_id" then some fun r => r.1.resource_type_id
    else if i.col = "user_plan_id" then some fun r => r.1.user_plan_id
    else if i.col = "created_by" then some fun r => r.1.created_by
    else if i.col = "last_modified_by" then some fun r => r.1.last_modified_by
    else none
  else if i.refersTo tables.RT then
    if i.col = "id" then some fun r => r.2.id
    else if i.col = "name" then some fun r => r.2.name
    else if i.col = "unit" then some fun r => r.2.unit
    else none
  else none

/-- The error of the database for a column reference that names no table of the FROM
clause. -/
def errMissingFromClauseEntry : Error :=
  { message := "missing FROM-clause entry for table" }

/-- Join `From(t.Quotas).Join(t.RT, On(lhs.Eq(rhs)))` for two resolved columns. -/
def joinResourceTypes (db : Database) (lhs rhs : QuotaRow × ResourceTypeRow → String) :
    List (QuotaRow × ResourceTypeRow) :=
  (db.quotas.flatMap fun q => db.resource_types.map fun rt => (q, rt)).filter
    fun r => lhs r = rhs r

/-- The `Select` list of `UserPlanQuotas`. -/
def selectQuota (r : QuotaRow × ResourceTypeRow) : Quota :=
  { ID := r.1.id
    Quota := r.1.quota
    CreatedBy := r.1.created_by
    CreatedAt := r.1.created_at
    LastModifiedBy := r.1.last_modified_by
    LastModifiedAt := r.1.last_modified_at
    ResourceType := { ID := r.2.id, Name := r.2.name, Unit := r.2.unit } }

/-- Method `UserPlanQuotas`; the pair is the Go result `([]Quota, error)`, a nil slice being
the empty list.  The join condition is
`goqu.I("t.Quotas.resource_type_id").Eq(goqu.I("resource_types.id"))`. -/
def UserPlanQuotas (db : Database) (execErr : Option Error) (userPlanID : String) :
    List Quota × Option Error :=
  match execErr with
  | some err => ([], some err)
  | none =>
    match quotaJoinColumn (I ["t", "Quotas", "resource_type_id"]),
      quotaJoinColumn (I ["resource_types", "id"]) with
    | some lhs, some rhs =>
      (((joinResourceTypes db lhs rhs).filter fun r => r.1.user_plan_id = userPlanID).map
        selectQuota, none)
    | _, _ => ([], some errMissingFromClauseEntry)

/-! ## States reached by activations -/

/-- Number of `user_plans` rows of a user whose window satisfies the window condition of
`GetActiveUserPlan` at the instant `t`. -/
def activeRowCount (db : Database) (userID : String) (t : Time) : Nat :=
  (db.user_plans.filter fun up =>
    decide (up.user_id = userID) && sqlHolds (windowCondition t up)).length

/-- States reached from `init` by calls of `SetActiveUserPlan`, whatever their outcome. -/
inductive Reachable (init : Database) : Database → Prop
  | start : Reachable init init
  | call (env : Env) (userID planID : String) {db : Database} :
      Reachable init db → Reachable init (SetActiveUserPlan env db userID planID).2

/-- States reached from `init` by calls of `SetActiveUserPlan` each made after the end of
every window the user already has. -/
inductive ReachableSequentially (init : Database) : Database → Prop
  | start : ReachableSequentially init init
  | call (env : Env) (userID planID : String) {db : Database} :
      ReachableSequentially init db →
      (∀ up ∈ db.user_plans, up.user_id = userID →
        ∃ e, up.effective_end_date = some e ∧ e < env.now) →
      ReachableSequentially init (SetActiveUserPlan env db userID planID).2

/-! ## Messages of package `qms` and `AddQuotaHandler` -/

/-- Modelled from the spec: the structured error of an error response (`svcerror` and
package `errors` are not part of the two files); it records the failure it derives from. -/
structure ServiceError where
  cause : Error
  deriving DecidableEq, Repr

/-- Modelled from the spec: `errors.NatsError`, the structured error derived from a
failure. -/
def NatsError (err : Error) : ServiceError :=
  { cause := err }

namespace qms

/-- Fields of `qms.ResourceType` the handler reads. -/
structure ResourceType where
  Uuid : String
  Name : String
  Unit : String
  deriving DecidableEq, Repr

/-- Fields of `qms.Quota` the handler reads or sets; `ResourceType` is a pointer. -/
structure Quota where
  Quota : QuotaValue
  ResourceType : Option ResourceType
  SubscriptionId : String
  deriving DecidableEq, Repr

/-- The request message; `Quota` is a pointer. -/
structure AddQuotaRequest where
  Quota : Option Quota
  deriving DecidableEq, Repr

/-- The response message. -/
structure QuotaResponse where
  Error : Option ServiceError
  Quota : Option Quota
  deriving DecidableEq, Repr

end qms

/-- Result of `pbinit.NewQuotaResponse()`: a response with neither an error nor a quota set. -/
def NewQuotaResponse : qms.QuotaResponse :=
  { Error := none, Quota := none }

/-- The two ledger calls of the handler over a store `σ`.  `GetCurrentQuota` gives the Go
result `(value, exists, error)`; both calls also give the store they leave behind. -/
structure Ledger (σ : Type) where
  GetCurrentQuota : σ → String → String → (QuotaValue × Bool × Option Error) × σ
  UpsertQuota : σ → Bool → QuotaValue → String → String → Option Error × σ

/-- What one run of the handler did: the store it left, the calls of `client.Respond` in
order (address and message), the errors passed to `log.Error`, and whether the run ended in
a nil-pointer dereference. -/
structure HandlerRun (σ : Type) where
  ledger : σ
  sent : List (String × qms.QuotaResponse)
  logged : List Error
  panicked : Bool

/-- The closure `sendError`: log the error, set it on the response, send the response, log
a failure to send. -/
def sendError {σ : Type} (respond : String → qms.QuotaResponse → Option Error) (s : σ)
    (reply : String) (response : qms.QuotaResponse) (err : Error) : HandlerRun σ :=
  let response := { response with Error := some (NatsError err) }
  match respond reply response with
  | some err' =>
    { ledger := s, sent := [(reply, response)], logged := [err, err'], panicked := false }
  | none => { ledger := s, sent := [(reply, response)], logged := [err], panicked := false }

/-- Handler `AddQuotaHandler`.  `respond` gives the outcome of `client.Respond` for an address and a
message.  Reading a field through a nil pointer ends the run. -/
def AddQuotaHandler {σ : Type} (L : Ledger σ)
    (respond : String → qms.QuotaResponse → Option Error) (s : σ) (_subject reply : String)
    (request : qms.AddQuotaRequest) : HandlerRun σ :=
  let response := NewQuotaResponse
  match request.Quota with
  | none => { ledger := s, sent := [], logged := [], panicked := true }
  | some q =>
    let subscriptionID := q.SubscriptionId
    match q.ResourceType with
    | none => { ledger := s, sent := [], logged := [], panicked := true }
    | some rt =>
      match L.GetCurrentQuota s rt.Uuid subscriptionID with
      | ((_, _, some err), s) => sendError respond s reply response err
      | ((_, update, none), s) =>
        match L.UpsertQuota s update q.Quota rt.Uuid subscriptionID with
        | (some err, s) => sendError respond s reply response err
        | (none, s) =>
          match L.GetCurrentQuota s rt.Uuid subscriptionID with
          | ((_, _, some err), s) => sendError respond s reply response err
          | ((value, _, none), s) =>
            let response :=
              { response with
                Quota := some
                  { Quota := value, ResourceType := q.ResourceType,
                    SubscriptionId := subscriptionID } }
            match respond reply response with
            | some err =>
              { ledger := s, sent := [(reply, response)], logged := [err], panicked := false }
            | none =>
              { ledger := s, sent := [(reply, response)], logged := [], panicked := false }

/-- Modelled from the spec: `currentQuota` of section 4.3 over the `quotas` table
(`GetCurrentQuota` is not part of the two files): the value of the row for the pair and
whether there is one. -/
def GetCurrentQuota (db : Database) (resourceTypeID subscriptionID : String) :
    (QuotaValue × Bool × Option Error) × Database :=
  match db.quotas.find? fun q =>
      decide (q.resource_type_id = resourceTypeID) && decide (q.user_plan_id = subscriptionID) with
  | some q => ((q.quota, true, none), db)
  | none => ((0, false, none), db)

/-- Modelled from the spec: `upsertQuota` of section 4.3 over the `quotas` table
(`UpsertQuota` is not part of the two files): update the rows of the pair when the flag is
set, insert a row otherwise. -/
def UpsertQuota (newID : String) (currentTimestamp : Time) (db : Database) (update : Bool)
    (value : QuotaValue) (resourceTypeID subscriptionID : String) : Option Error × Database :=
  if update then
    (none,
      { db with
        quotas := db.quotas.map fun q =>
          if q.resource_type_id = resourceTypeID ∧ q.user_plan_id = subscriptionID then
            { q with quota := value, last_modified_by := "de",
                     last_modified_at := currentTimestamp }
          else q })
  else
    (none,
      { db with
        quotas := db.quotas ++
          [{ id := newID, resource_type_id := resourceTypeID, user_plan_id := subscriptionID,
             quota := value, created_by := "de", created_at := currentTimestamp,
             last_modified_by := "de", last_modified_at := currentTimestamp }] })

/-- Modelled from the spec: the ledger of section 4.3 over the tables. -/
def tableLedger (newID : String) (currentTimestamp : Time) : Ledger Database :=
  { GetCurrentQuota := GetCurrentQuota
    UpsertQuota := UpsertQuota newID currentTimestamp }

/-! ## Example data -/

/-- Plan "Basic" grants 1000 of "cpu.hours"; plan "Pro" grants 5000; users "alice" and
"bob" have no assignment yet. -/
def exampleDB : Database :=
  { users := [{ id := "u-alice", username := "alice" }, { id := "u-bob", username := "bob" }]
    plans :=
      [{ id := "p-basic", name := "Basic", description := "" },
       { id := "p-pro", name := "Pro", description := "" }]
    resource_types := [{ id := "rt-cpu", name := "cpu.hours", unit := "cpu hours" }]
    plan_quota_defaults :=
      [{ id := "d-1", plan_id := "p-basic", resource_type_id := "rt-cpu", quota_value := 1000 },
       { id := "d-2", plan_id := "p-pro", resource_type_id := "rt-cpu", quota_value := 5000 }]
    user_plans := []
    quotas := [] }

/-- An activation on 29 February 2024, 10:00 UTC, in which both statements succeed. -/
def exampleEnv : Env :=
  { now := Date 2024 2 29 10 0 0 0
    location := UTC
    currentTimestamp := Date 2024 2 29 10 0 0 0
    newUserPlanID := "up-1"
    newQuotaID := fun _ => "q-1"
    insertUserPlanErr := none
    insertQuotasErr := none }

/-- A second activation, one second later. -/
def exampleEnv2 : Env :=
  { exampleEnv with now := Date 2024 2 29 10 0 1 0, newUserPlanID := "up-2" }

/-- An activation two years after the first one. -/
def exampleEnvLater : Env :=
  { exampleEnv with now := Date 2026 2 28 10 0 0 0, newUserPlanID := "up-3" }

/-- A table with one assignment of "bob" whose window is from instant 10 to instant 100. -/
def exampleExpiring : Database :=
  { exampleDB with
    user_plans :=
      [{ id := "up-0", effective_start_date := 10, effective_end_date := some 100,
         user_id := "u-bob", plan_id := "p-basic", created_by := "de", created_at := 10,
         last_modified_by := "de", last_modified_at := 10 }] }

/-- A location one hour east of UTC until Unix time 1720000000 (3 July 2024) and two hours
east of UTC from then on. -/
def exampleZone : Location :=
  { lookup := fun unix =>
      if unix < 1720000000 then (3600, -9223372036854775808, 1720000000)
      else (7200, 1720000000, 9223372036854775807) }

/-! ## Calendar facts -/

theorem daysSinceEpoch_eq (y : Nat) :
    daysSinceEpoch ((y : Int) + absoluteZeroYear) =
      146097 * (y / 400) + 36524 * (y % 400 / 100) + 1461 * (y % 100 / 4) + 365 * (y % 4) := by
  unfold daysSinceEpoch
  lift_lets
  intro y0 n1 y1 d1 n2 y2 d2 n3 y3 d3 n4
  have e0 : y0 = y := by simp [y0]
  have e1 : n1 = y0 / 400 := rfl
  have e2 : y1 = y0 - 400 * n1 := rfl
  have e3 : d1 = 146097 * n1 := rfl
  have e4 : n2 = y1 / 100 := rfl
  have e5 : y2 = y1 - 100 * n2 := rfl
  have e6 : d2 = d1 + 36524 * n2 := rfl
  have e7 : n3 = y2 / 4 := rfl
  have e8 : y3 = y2 - 4 * n3 := rfl
  have e9 : d3 = d2 + 1461 * n3 := rfl
  have e10 : n4 = y3 := rfl
  clear_value y0 n1 y1 d1 n2 y2 d2 n3 y3 d3 n4
  omega

theorem isLeap_eq (y : Nat) :
    isLeap ((y : Int) + absoluteZeroYear) =
      decide ((y + 1) % 4 = 0 ∧ ((y + 1) % 100 ≠ 0 ∨ (y + 1) % 400 = 0)) := by
  unfold isLeap absoluteZeroYear
  rw [Bool.eq_iff_iff]
  simp only [Bool.and_eq_true, Bool.or_eq_true, beq_iff_eq, bne_iff_ne, decide_eq_true_eq]
  omega

theorem absYear_spec (abs : Nat) :
    ∃ y : Nat, (absYear abs).1 = (y : Int) + absoluteZeroYear ∧
      daysSinceEpoch (absYear abs).1 + (absYear abs).2 = abs / secondsPerDay ∧
      (absYear abs).2 < (if isLeap (absYear abs).1 then 366 else 365) := by
  unfold absYear
  lift_lets
  intro d n1 y1 d1 n2 n2' y2 d2 n3 y3 d3 n4 n4' y4 d4
  have e0 : d = abs / secondsPerDay := rfl
  have e1 : n1 = d / 146097 := rfl
  have e2 : y1 = 400 * n1 := rfl
  have e3 : d1 = d - 146097 * n1 := rfl
  have e4 : n2 = d1 / 36524 := rfl
  have e5 : n2' = n2 - n2 / 4 := rfl
  have e6 : y2 = y1 + 100 * n2' := rfl
  have e7 : d2 = d1 - 36524 * n2' := rfl
  have e8 : n3 = d2 / 1461 := rfl
  have e9 : y3 = y2 + 4 * n3 := rfl
  have e10 : d3 = d2 - 1461 * n3 := rfl
  have e11 : n4 = d3 / 365 := rfl
  have e12 : n4' = n4 - n4 / 4 := rfl
  have e13 : y4 = y3 + n4' := rfl
  have e14 : d4 = d3 - 365 * n4' := rfl
  clear_value d n1 y1 d1 n2 n2' y2 d2 n3 y3 d3 n4 n4' y4 d4
  have b1 : d1 < 146097 ∧ d = 146097 * n1 + d1 := by omega
  have b2 : n2' ≤ 3 ∧ d1 = 36524 * n2' + d2 ∧ (d2 < 36524 ∨ (n2' = 3 ∧ d2 = 36524)) := by
    clear e0 e1 e2 e3 e6 e8 e9 e10 e11 e12 e13 e14
    omega
  have b3 : d3 < 1461 ∧ d2 = 1461 * n3 + d3 ∧ n3 ≤ 24 := by
    clear e0 e1 e2 e3 e4 e5 e6 e7 e9 e11 e12 e13 e14 b1
    omega
  have b4 : n4' ≤ 3 ∧ d3 = 365 * n4' + d4 ∧ (d4 < 365 ∨ (n4' = 3 ∧ d4 = 365)) := by
    clear e0 e1 e2 e3 e4 e5 e6 e7 e8 e9 e10 e13 b1 b2
    omega
  have c0 : y4 = 400 * n1 + 100 * n2' + 4 * n3 + n4' := by omega
  clear e1 e2 e3 e4 e5 e6 e7 e8 e9 e10 e11 e12 e13 e14
  have c1 : y4 / 400 = n1 := by omega
  have c2 : y4 % 400 / 100 = n2' := by omega
  have c3 : y4 % 100 / 4 = n3 := by omega
  have c4 : y4 % 4 = n4' := by omega
  refine ⟨y4, rfl, ?_, ?_⟩
  · simp only [daysSinceEpoch_eq, c1, c2, c3, c4]
    omega
  · simp only [isLeap_eq]
    split <;> rename_i h <;> simp only [decide_eq_true_eq] at h <;> omega

theorem absDate_spec (abs : Nat) :
    (absDate abs).1 = (absYear abs).1 ∧ 1 ≤ (absDate abs).2.1 ∧ (absDate abs).2.1 ≤ 12 ∧
      1 ≤ (absDate abs).2.2 ∧
      daysBefore ((absDate abs).2.1 - 1) +
          (if isLeap (absDate abs).1 && decide (3 ≤ (absDate abs).2.1) then 1 else 0) +
          ((absDate abs).2.2 - 1) = (absYear abs).2 := by
  obtain ⟨y, -, -, hlt⟩ := absYear_spec abs
  unfold absDate
  rcases hp : absYear abs with ⟨year, yday⟩
  rw [hp] at hlt
  simp only at hlt ⊢
  rcases Bool.eq_false_or_eq_true (isLeap year) with hleap | hleap
  · simp only [hleap, Bool.true_and, if_true] at hlt ⊢
    by_cases h59 : yday = 59
    · subst h59
      simp [daysBefore]
    · have hb : (yday == 31 + 29 - 1) = false := by simpa using h59
      simp only [hb, Bool.false_eq_true, if_false]
      by_cases hgt : yday > 59
      · have hd : decide (yday > 31 + 29 - 1) = true := by simpa using hgt
        simp only [hd, if_true]
        obtain ⟨day, hday⟩ : ∃ day, day + 1 = yday := ⟨yday - 1, by omega⟩
        subst hday
        simp only [Nat.add_sub_cancel]
        have hm : day / 31 < 12 := by omega
        interval_cases hq : day / 31 <;> simp only [daysBefore] <;> split <;> simp [hleap] <;> omega
      · have hd : decide (yday > 31 + 29 - 1) = false := by simpa using hgt
        simp only [hd, Bool.false_eq_true, if_false]
        have hm : yday / 31 < 2 := by omega
        interval_cases hq : yday / 31 <;> simp only [daysBefore] <;> split <;> simp [hleap] <;> omega
  · simp only [hleap, Bool.false_and, Bool.false_eq_true, if_false] at hlt ⊢
    have hm : yday / 31 < 12 := by omega
    interval_cases hq : yday / 31 <;> simp only [daysBefore] <;> split <;> simp <;> omega

theorem absClock_spec (abs : Nat) :
    (absClock abs).1 < 24 ∧ (absClock abs).2.1 < 60 ∧ (absClock abs).2.2 < 60 ∧
      (absClock abs).1 * 3600 + (absClock abs).2.1 * 60 + (absClock abs).2.2 =
        abs % secondsPerDay := by
  unfold absClock
  lift_lets
  intro s0 hour s1 min s2
  have e0 : s0 = abs % 86400 := rfl
  have e1 : hour = s0 / 3600 := rfl
  have e2 : s1 = s0 - hour * 3600 := rfl
  have e3 : min = s1 / 60 := rfl
  have e4 : s2 = s1 - min * 60 := rfl
  have e5 : secondsPerDay = 86400 := rfl
  clear_value s0 hour s1 min s2
  simp only [e5]
  omega

theorem norm_of_lt (hi lo base : Int) (h0 : 0 ≤ lo) (h1 : lo < base) :
    norm hi lo base = (hi, lo) := by
  unfold norm
  simp only [not_lt.mpr h0, if_false, ge_iff_le, not_le.mpr h1]

theorem Date_of_normal (year : Int) (month day hour min sec nsec : Nat)
    (hm1 : 1 ≤ month) (hm2 : month ≤ 12) (hd : 1 ≤ day) (hh : hour < 24) (hmi : min < 60)
    (hs : sec < 60) (hn : nsec < 1000000000) :
    Date year month day hour min sec nsec =
      ((daysSinceEpoch year + daysBefore (month - 1) +
            (if isLeap year && decide (3 ≤ month) then 1 else 0) + (day - 1)) * 86400 +
          (hour * 3600 + min * 60 + sec)) * 1000000000 + nsec := by
  have n1 := norm_of_lt year ((month : Int) - 1) 12 (by omega) (by omega)
  have n2 := norm_of_lt sec nsec 1000000000 (by omega) (by omega)
  have n3 := norm_of_lt min sec 60 (by omega) (by omega)
  have n4 := norm_of_lt hour min 60 (by omega) (by omega)
  have n5 := norm_of_lt day hour 24 (by omega) (by omega)
  unfold Date DateIn
  simp only [n1]
  simp only [n2]
  simp only [n3, n4, n5, UTC, ne_eq, not_true_eq_false, if_false]
  have e0 : unixToInternal + internalToAbsolute = 9223372028715321600 := rfl
  rw [e0]
  have e1 : ((month : Int) - 1 + 1 - 1).toNat = month - 1 := by omega
  have e2 : ((month : Int) - 1 + 1 ≥ 3) ↔ 3 ≤ month := by omega
  have e3 : secondsPerDay = 86400 := rfl
  have e4 : secondsPerHour = 3600 := rfl
  have e5 : secondsPerMinute = 60 := rfl
  rw [e1, e3, e4, e5]
  simp only [e2]
  generalize daysSinceEpoch year = dse
  generalize daysBefore (month - 1) = db
  by_cases hc : (isLeap year && decide (3 ≤ month)) = true
  · simp only [hc, if_true, Nat.cast_ofNat]
    show (_ : Nat) = (_ : Nat)
    omega
  · simp only [hc, Bool.false_eq_true, if_false, Nat.cast_ofNat]
    show (_ : Nat) = (_ : Nat)
    omega

theorem daysSinceEpoch_succ (y : Nat) :
    daysSinceEpoch (((y + 1 : Nat) : Int) + absoluteZeroYear) =
      daysSinceEpoch ((y : Int) + absoluteZeroYear) +
        (if isLeap ((y : Int) + absoluteZeroYear) then 366 else 365) := by
  simp only [daysSinceEpoch_eq, isLeap_eq]
  split <;> rename_i h <;> simp only [decide_eq_true_eq] at h <;> omega

theorem not_isLeap_succ (y : Nat) (h : isLeap ((y : Int) + absoluteZeroYear) = true) :
    isLeap (((y + 1 : Nat) : Int) + absoluteZeroYear) = false := by
  simp only [isLeap_eq, decide_eq_true_eq, decide_eq_false_iff_not] at h ⊢
  omega

theorem abs_UTC (t : Time) : t.abs UTC = t / 1000000000 := by
  unfold Time.abs Time.unixSec UTC
  simp only
  omega

/-- In the location UTC, one year added by `AddDate` is 365 or 366 days. -/
theorem AddDate_one_year (t : Time) :
    (AddDate UTC t 1 0 0 : Nat) = t + 365 * 86400 * 1000000000 ∨
      (AddDate UTC t 1 0 0 : Nat) = t + 366 * 86400 * 1000000000 := by
  obtain ⟨hy, hm1, hm2, hd1, hsum⟩ := absDate_spec (t.abs UTC)
  obtain ⟨y, hy2, hdse, hlt⟩ := absYear_spec (t.abs UTC)
  obtain ⟨hh, hmi, hs, hclock⟩ := absClock_spec (t.abs UTC)
  unfold AddDate
  rcases hA : absDate (t.abs UTC) with ⟨year, month, day⟩
  rcases hC : absClock (t.abs UTC) with ⟨hour, min, sec⟩
  rcases hY : absYear (t.abs UTC) with ⟨year2, yday⟩
  simp only [hA, hC, hY] at hy hm1 hm2 hd1 hsum hy2 hdse hlt hh hmi hs hclock ⊢
  clear hA hC hY
  subst hy
  subst hy2
  have hn : t.nsec < 1000000000 := Nat.mod_lt _ (by decide)
  have e1 : ((month : Int) + 0) = month := by omega
  have e2 : ((day : Int) + 0) = day := by omega
  have e3 : ((y : Int) + absoluteZeroYear + 1) = ((y + 1 : Nat) : Int) + absoluteZeroYear := by
    push_cast
    omega
  have e5 : ∀ a b c d e f g : Int, DateIn UTC a b c d e f g = Date a b c d e f g :=
    fun _ _ _ _ _ _ _ => rfl
  rw [e1, e2, e3, e5, Date_of_normal _ month day hour min sec t.nsec hm1 hm2 hd1 hh hmi hs hn,
    daysSinceEpoch_succ]
  have ht : @Eq Nat t
      ((t.abs UTC / 86400 * 86400 + t.abs UTC % 86400) * 1000000000 + t.nsec) := by
    rw [abs_UTC]
    unfold Time.nsec
    omega
  have e4 : secondsPerDay = 86400 := rfl
  rw [e4] at hdse hclock
  generalize daysSinceEpoch ((y : Int) + absoluteZeroYear) = dse at *
  generalize daysBefore (month - 1) = db at *
  generalize t.abs UTC = abs at *
  generalize t.nsec = nsec at *
  rcases Bool.eq_false_or_eq_true (isLeap ((y : Int) + absoluteZeroYear)) with hl | hl
  · have hl2 := not_isLeap_succ y hl
    simp only [hl, hl2, Bool.true_and, Bool.false_and, if_true, Bool.false_eq_true, if_false]
      at hsum hlt ⊢
    by_cases h3 : 3 ≤ month
    · simp only [h3, decide_True, if_true] at hsum
      left
      show (_ : Nat) = (_ : Nat)
      omega
    · simp only [h3, decide_False, Bool.false_eq_true, if_false] at hsum
      right
      show (_ : Nat) = (_ : Nat)
      omega
  · simp only [hl, Bool.true_and, Bool.false_and, if_true, Bool.false_eq_true, if_false]
      at hsum hlt ⊢
    by_cases hc : (isLeap (((y + 1 : Nat) : Int) + absoluteZeroYear) && decide (3 ≤ month)) = true
    · simp only [hc, if_true]
      right
      show (_ : Nat) = (_ : Nat)
      omega
    · simp only [hc, Bool.false_eq_true, if_false]
      left
      show (_ : Nat) = (_ : Nat)
      omega


/-! ## The queries of `GetActiveUserPlan`, `UserHasActivePlan` and `UserOnPlan` -/

theorem mem_joinUsers (db : Database) (up : UserPlanRow) (u : UserRow) :
    (up, u) ∈ joinUsers db ↔ up ∈ db.user_plans ∧ u ∈ db.users ∧ up.user_id = u.id := by
  simp only [joinUsers, List.mem_flatMap, List.mem_map, List.mem_filter, decide_eq_true_eq,
    Prod.mk.injEq]
  constructor
  · rintro ⟨a, ha, b, ⟨hb, hab⟩, rfl, rfl⟩
    exact ⟨ha, hb, hab⟩
  · rintro ⟨h1, h2, h3⟩
    exact ⟨up, h1, u, ⟨h2, h3⟩, rfl, rfl⟩

theorem mem_joinUsersPlans (db : Database) (up : UserPlanRow) (u : UserRow) (p : PlanRow) :
    (up, u, p) ∈ joinUsersPlans db ↔
      up ∈ db.user_plans ∧ u ∈ db.users ∧ p ∈ db.plans ∧ up.user_id = u.id ∧
        up.plan_id = p.id := by
  simp only [joinUsersPlans, List.mem_flatMap, List.mem_map, List.mem_filter, decide_eq_true_eq,
    Prod.mk.injEq, Prod.exists, mem_joinUsers]
  constructor
  · rintro ⟨a, b, ⟨ha, hb, hab⟩, c, ⟨hc, hac⟩, rfl, rfl, rfl⟩
    exact ⟨ha, hb, hc, hab, hac⟩
  · rintro ⟨h1, h2, h3, h4, h5⟩
    exact ⟨up, u, ⟨h1, h2, h4⟩, p, ⟨h3, h5⟩, rfl, rfl, rfl⟩

theorem windowCondition_iff (currTS : Time) (up : UserPlanRow) :
    sqlHolds (windowCondition currTS up) = true ↔
      (∃ e, up.effective_end_date = some e ∧ up.effective_start_date ≤ currTS ∧ currTS ≤ e) ∨
        (up.effective_end_date = none ∧ up.effective_start_date < currTS) := by
  unfold windowCondition sqlBetween sqlHolds
  cases hend : up.effective_end_date with
  | none =>
    by_cases h : up.effective_start_date < currTS <;>
      by_cases h' : up.effective_start_date ≤ currTS <;>
      simp [sqlOr, sqlAnd, sqlGte, sqlLte, sqlGt, sqlIsNull, h, h']
  | some e =>
    by_cases h : up.effective_start_date < currTS <;>
      by_cases h' : up.effective_start_date ≤ currTS <;>
      by_cases h'' : currTS ≤ e <;>
      simp [sqlOr, sqlAnd, sqlGte, sqlLte, sqlGt, sqlIsNull, h, h', h'']

theorem activeCondition_iff (currTS : Time) (username : String)
    (r : UserPlanRow × UserRow × PlanRow) :
    sqlHolds (activeCondition currTS username r) = true ↔
      r.2.1.username = username ∧ sqlHolds (windowCondition currTS r.1) = true := by
  unfold activeCondition sqlEq sqlHolds
  by_cases h : r.2.1.username = username <;>
    rcases hw : windowCondition currTS r.1 with _ | _ | _ <;> simp [sqlAnd, h]

theorem mem_activeCandidates (db : Database) (currTS : Time) (username : String)
    (r : UserPlan) :
    r ∈ activeCandidates db currTS username ↔
      ∃ up ∈ db.user_plans, ∃ u ∈ db.users, ∃ p ∈ db.plans,
        up.user_id = u.id ∧ up.plan_id = p.id ∧ u.username = username ∧
          sqlHolds (windowCondition currTS up) = true ∧ r = selectUserPlan (up, u, p) := by
  simp only [activeCandidates, List.mem_map, List.mem_filter, activeCondition_iff, Prod.exists,
    mem_joinUsersPlans]
  constructor
  · rintro ⟨up, u, p, ⟨⟨h1, h2, h3, h4, h5⟩, h6, h7⟩, rfl⟩
    exact ⟨up, h1, u, h2, p, h3, h4, h5, h6, h7, rfl⟩
  · rintro ⟨up, h1, u, h2, p, h3, h4, h5, h6, h7, rfl⟩
    exact ⟨up, u, p, ⟨⟨h1, h2, h3, h4, h5⟩, h6, h7⟩, rfl⟩

theorem mem_orderByStartDesc (rows : List UserPlan) (r : UserPlan) :
    r ∈ orderByStartDesc rows ↔ r ∈ rows :=
  (List.perm_insertionSort _ rows).mem_iff

theorem orderByStartDesc_sorted (rows : List UserPlan) :
    (orderByStartDesc rows).Sorted fun a b => b.EffectiveStartDate ≤ a.EffectiveStartDate := by
  haveI : IsTotal UserPlan fun a b => b.EffectiveStartDate ≤ a.EffectiveStartDate :=
    ⟨fun a b => Nat.le_total b.EffectiveStartDate a.EffectiveStartDate⟩
  haveI : IsTrans UserPlan fun a b => b.EffectiveStartDate ≤ a.EffectiveStartDate :=
    ⟨fun _ _ _ h1 h2 => Nat.le_trans h2 h1⟩
  exact List.sorted_insertionSort _ rows

theorem orderByStartDesc_eq_nil (rows : List UserPlan) :
    orderByStartDesc rows = [] ↔ rows = [] := by
  constructor
  · intro h
    have hp := List.perm_insertionSort
      (fun a b : UserPlan => b.EffectiveStartDate ≤ a.EffectiveStartDate) rows
    unfold orderByStartDesc at h
    rw [h] at hp
    exact List.Perm.eq_nil hp.symm
  · rintro rfl
    rfl

/-- The rows of the query are the candidates when there is none, and otherwise one candidate
that no other candidate starts after. -/
theorem activeUserPlanRows_spec (db : Database) (currTS : Time) (username : String) :
    (activeCandidates db currTS username = [] ∧ activeUserPlanRows db currTS username = []) ∨
      ∃ r ∈ activeCandidates db currTS username,
        activeUserPlanRows db currTS username = [r] ∧
          ∀ r' ∈ activeCandidates db currTS username,
            r'.EffectiveStartDate ≤ r.EffectiveStartDate := by
  unfold activeUserPlanRows
  have hs := orderByStartDesc_sorted (activeCandidates db currTS username)
  have hm := mem_orderByStartDesc (activeCandidates db currTS username)
  have hn := orderByStartDesc_eq_nil (activeCandidates db currTS username)
  cases hl : orderByStartDesc (activeCandidates db currTS username) with
  | nil =>
    left
    exact ⟨hn.mp hl, rfl⟩
  | cons r rest =>
    right
    rw [hl] at hs hm
    refine ⟨r, (hm r).mp (List.mem_cons_self r rest), rfl, ?_⟩
    intro r' hr'
    rcases List.mem_cons.mp ((hm r').mpr hr') with h | h
    · rw [h]
    · exact List.rel_of_sorted_cons hs r' h

theorem GetActiveUserPlan_eq (db : Database) (currTS : Time) (username : String) :
    GetActiveUserPlan db currTS none username =
      (some ((activeUserPlanRows db currTS username).headD UserPlan.zero), none) := by
  unfold GetActiveUserPlan ScanStructContext
  cases activeUserPlanRows db currTS username <;> rfl

theorem GetActiveUserPlan_error (db : Database) (currTS : Time) (err : Error)
    (username : String) :
    GetActiveUserPlan db currTS (some err) username = (none, some err) := rfl

/-! ## The window that `GetActiveUserPlan` selects on -/

/-- C1, as stated, fails: the only assignment of "bob" ends at instant 100, and at the
instant 100 itself the query still yields it and `GetActiveUserPlan` returns it. -/
theorem GetActiveUserPlan_selects_at_end :
    ∃ r, activeUserPlanRows exampleExpiring 100 "bob" = [r] ∧ r.ID = "up-0" ∧
      r.EffectiveEndDate = some 100 ∧
      GetActiveUserPlan exampleExpiring 100 none "bob" = (some r, none) :=
  ⟨_, rfl, rfl, rfl, rfl⟩

/-- C1, amended: every row the query of `GetActiveUserPlan` yields is a `user_plans` row of
the user whose window satisfies `start ≤ now ≤ end`, or `end` null and `start < now`; a
value returned without error that is not the zero value is such a row; when every
assignment of the user has a non-null end before `now`, the query yields no row; and every
row of the user with such a window, in particular one with `now = end`, is a candidate, so
that the query then yields a row, starting no earlier, which `GetActiveUserPlan` returns. -/
theorem GetActiveUserPlan_window_inclusive (db : Database) (currTS : Time)
    (username : String) :
    (∀ r ∈ activeUserPlanRows db currTS username,
        (∃ up ∈ db.user_plans, ∃ u ∈ db.users, ∃ p ∈ db.plans,
            up.user_id = u.id ∧ up.plan_id = p.id ∧ u.username = username ∧
              r = selectUserPlan (up, u, p)) ∧
          ((∃ e, r.EffectiveEndDate = some e ∧ r.EffectiveStartDate ≤ currTS ∧ currTS ≤ e) ∨
            (r.EffectiveEndDate = none ∧ r.EffectiveStartDate < currTS))) ∧
      (∀ execErr r, GetActiveUserPlan db currTS execErr username = (some r, none) →
        r ≠ UserPlan.zero → r ∈ activeUserPlanRows db currTS username) ∧
      ((∀ up ∈ db.user_plans, ∀ u ∈ db.users, up.user_id = u.id → u.username = username →
          ∃ e, up.effective_end_date = some e ∧ e < currTS) →
        activeUserPlanRows db currTS username = []) ∧
      (∀ up ∈ db.user_plans, ∀ u ∈ db.users, ∀ p ∈ db.plans,
        up.user_id = u.id → up.plan_id = p.id → u.username = username →
        ((∃ e, up.effective_end_date = some e ∧ up.effective_start_date ≤ currTS ∧
              currTS ≤ e) ∨
          (up.effective_end_date = none ∧ up.effective_start_date < currTS)) →
        selectUserPlan (up, u, p) ∈ activeCandidates db currTS username ∧
          ∃ r, activeUserPlanRows db currTS username = [r] ∧
            GetActiveUserPlan db currTS none username = (some r, none) ∧
            up.effective_start_date ≤ r.EffectiveStartDate) := by
  refine ⟨?_, ?_, ?_, ?_⟩
  · intro r hr
    rcases activeUserPlanRows_spec db currTS username with ⟨-, h⟩ | ⟨r0, hr0, h, -⟩
    · rw [h] at hr
      cases hr
    · rw [h, List.mem_singleton] at hr
      subst hr
      obtain ⟨up, h1, u, h2, p, h3, h4, h5, h6, h7, rfl⟩ :=
        (mem_activeCandidates db currTS username r).mp hr0
      exact ⟨⟨up, h1, u, h2, p, h3, h4, h5, h6, rfl⟩, (windowCondition_iff currTS up).mp h7⟩
  · intro execErr r hret hnz
    cases execErr with
    | some err =>
      rw [GetActiveUserPlan_error] at hret
      cases hret
    | none =>
      rw [GetActiveUserPlan_eq] at hret
      cases hrows : activeUserPlanRows db currTS username with
      | nil =>
        rw [hrows] at hret
        simp only [List.headD_nil, Prod.mk.injEq, Option.some.injEq, and_true] at hret
        exact absurd hret.symm hnz
      | cons a rest =>
        rw [hrows] at hret
        simp only [List.headD_cons, Prod.mk.injEq, Option.some.injEq, and_true] at hret
        rw [← hret]
        exact List.mem_cons_self a rest
  · intro hexp
    rcases activeUserPlanRows_spec db currTS username with ⟨-, h⟩ | ⟨r0, hr0, -, -⟩
    · exact h
    · obtain ⟨up, h1, u, h2, p, -, h4, -, h6, h7, -⟩ :=
        (mem_activeCandidates db currTS username r0).mp hr0
      obtain ⟨e, he, hlt⟩ := hexp up h1 u h2 h4 h6
      rcases (windowCondition_iff currTS up).mp h7 with ⟨e', he', -, hle⟩ | ⟨hnone, -⟩
      · rw [he] at he'
        cases he'
        exact absurd hlt (Nat.not_lt.mpr hle)
      · rw [he] at hnone
        cases hnone
  · intro up hup u hu p hp hid hpid hname hwin
    have hc : selectUserPlan (up, u, p) ∈ activeCandidates db currTS username :=
      (mem_activeCandidates db currTS username _).mpr
        ⟨up, hup, u, hu, p, hp, hid, hpid, hname, (windowCondition_iff currTS up).mpr hwin, rfl⟩
    refine ⟨hc, ?_⟩
    rcases activeUserPlanRows_spec db currTS username with ⟨h, -⟩ | ⟨r, -, hrows, hmax⟩
    · rw [h] at hc
      cases hc
    · refine ⟨r, hrows, ?_, hmax _ hc⟩
      rw [GetActiveUserPlan_eq, hrows]
      rfl

/-- Witness of the amended C1: the only assignment of "bob" ends at instant 100; at the
instant 100 the query yields a row and `GetActiveUserPlan` returns it, and one instant
later the query yields no row. -/
theorem GetActiveUserPlan_window_inclusive_witness :
    activeUserPlanRows exampleExpiring 101 "bob" = [] ∧
      ∃ r, activeUserPlanRows exampleExpiring 100 "bob" = [r] ∧
        GetActiveUserPlan exampleExpiring 100 none "bob" = (some r, none) ∧
        10 ≤ r.EffectiveStartDate :=
  ⟨(GetActiveUserPlan_window_inclusive exampleExpiring 101 "bob").2.2.1 (by
      intro up hup u _ _ _
      simp only [exampleExpiring, List.mem_singleton] at hup
      subst hup
      exact ⟨100, rfl, by decide⟩),
    ((GetActiveUserPlan_window_inclusive exampleExpiring 100 "bob").2.2.2
      { id := "up-0", effective_start_date := 10, effective_end_date := some 100,
        user_id := "u-bob", plan_id := "p-basic", created_by := "de", created_at := 10,
        last_modified_by := "de", last_modified_at := 10 }
      (by decide) { id := "u-bob", username := "bob" } (by decide)
      { id := "p-basic", name := "Basic", description := "" } (by decide) rfl rfl rfl
      (Or.inl ⟨100, rfl, by decide, Nat.le_refl 100⟩)).2⟩

/-! ## No assignment -/

theorem UserHasActivePlan_iff (db : Database) (username : String) :
    UserHasActivePlan db none username = (true, none) ↔
      ∃ up ∈ db.user_plans, ∃ u ∈ db.users, up.user_id = u.id ∧ u.username = username := by
  simp only [UserHasActivePlan, Prod.mk.injEq, and_true, decide_eq_true_eq, gt_iff_lt,
    List.length_pos, ne_eq, List.filter_eq_nil_iff, Prod.forall, mem_joinUsers, not_forall,
    Classical.not_imp, Decidable.not_not]
  constructor
  · rintro ⟨up, u, ⟨h1, h2, h3⟩, h4⟩
    exact ⟨up, h1, u, h2, h3, h4⟩
  · rintro ⟨up, h1, u, h2, h3, h4⟩
    exact ⟨up, u, ⟨h1, h2, h3⟩, h4⟩

/-- C3, as stated, fails: one instant after the only assignment of "bob" has ended no row
has a window around the instant, yet `UserHasActivePlan` returns true, and
`GetActiveUserPlan` returns a `UserPlan` value (the zero value) together with a nil error. -/
theorem no_active_row_yet_reported :
    activeCandidates exampleExpiring 101 "bob" = [] ∧
      UserHasActivePlan exampleExpiring none "bob" = (true, none) ∧
      GetActiveUserPlan exampleExpiring 101 none "bob" = (some UserPlan.zero, none) :=
  ⟨rfl, rfl, rfl⟩

/-- C3, amended: for a user with no `user_plans` row `UserHasActivePlan` returns false, and
whenever no row of the user has a window around `now` (in particular when the user has no
row) the query of `GetActiveUserPlan` yields no row; `UserHasActivePlan` returns true as
soon as the user has a row, whatever its window. -/
theorem no_assignment_found (db : Database) (username : String) :
    ((∀ up ∈ db.user_plans, ∀ u ∈ db.users, up.user_id = u.id → u.username ≠ username) →
        UserHasActivePlan db none username = (false, none) ∧
          ∀ currTS, activeUserPlanRows db currTS username = []) ∧
      (∀ currTS,
        (∀ up ∈ db.user_plans, ∀ u ∈ db.users, up.user_id = u.id → u.username = username →
          sqlHolds (windowCondition currTS up) = false) →
        activeUserPlanRows db currTS username = []) ∧
      ((∃ up ∈ db.user_plans, ∃ u ∈ db.users, up.user_id = u.id ∧ u.username = username) →
        UserHasActivePlan db none username = (true, none)) := by
  have hwin : ∀ currTS,
      (∀ up ∈ db.user_plans, ∀ u ∈ db.users, up.user_id = u.id → u.username = username →
        sqlHolds (windowCondition currTS up) = false) →
      activeUserPlanRows db currTS username = [] := by
    intro currTS hno
    rcases activeUserPlanRows_spec db currTS username with ⟨-, h⟩ | ⟨r0, hr0, -, -⟩
    · exact h
    · obtain ⟨up, h1, u, h2, p, -, h4, -, h6, h7, -⟩ :=
        (mem_activeCandidates db currTS username r0).mp hr0
      rw [hno up h1 u h2 h4 h6] at h7
      cases h7
  refine ⟨?_, hwin, (UserHasActivePlan_iff db username).mpr⟩
  intro hnone
  refine ⟨?_, fun currTS => hwin currTS fun up h1 u h2 h4 h6 => absurd h6 (hnone up h1 u h2 h4)⟩
  have hnot : ¬ UserHasActivePlan db none username = (true, none) := by
    rw [UserHasActivePlan_iff]
    rintro ⟨up, h1, u, h2, h3, h4⟩
    exact hnone up h1 u h2 h3 h4
  simp only [UserHasActivePlan, Prod.mk.injEq, and_true, decide_eq_true_eq,
    decide_eq_false_iff_not] at hnot ⊢
  exact hnot

/-- Witness of the amended C3: "alice" has no assignment in the example table. -/
theorem no_assignment_found_witness :
    UserHasActivePlan exampleExpiring none "alice" = (false, none) ∧
      ∀ currTS, activeUserPlanRows exampleExpiring currTS "alice" = [] :=
  (no_assignment_found exampleExpiring "alice").1 (by
    intro up hup u hu hid
    simp only [exampleExpiring, List.mem_singleton] at hup
    subst hup
    simp only [exampleExpiring, exampleDB, List.mem_cons, List.mem_singleton,
      List.not_mem_nil, or_false] at hu
    rcases hu with rfl | rfl
    · exact absurd hid (by decide)
    · decide)

/-! ## `SetActiveUserPlan` -/

theorem lt_AddDate_one_year (t : Time) : t < AddDate UTC t 1 0 0 := by
  rcases AddDate_one_year t with h | h <;> rw [h] <;> show (_ : Nat) < _ <;> omega

/-- In a location whose offset changes during the year, one year added by `AddDate` is the
same civil date and clock a year later, not a whole number of days: here 366 days less one
hour. -/
theorem AddDate_across_offset_change :
    AddDate exampleZone (DateIn exampleZone 2024 2 29 12 0 0 0) 1 0 0 =
        DateIn exampleZone 2025 3 1 12 0 0 0 ∧
      AddDate exampleZone (DateIn exampleZone 2024 2 29 12 0 0 0) 1 0 0 =
        DateIn exampleZone 2024 2 29 12 0 0 0 + (366 * 86400 - 3600) * 1000000000 := by
  decide

/-- The result of a call and the state it leaves behind, by the outcome of its `INSERT`
statement: the call never goes past the scan of the returned id. -/
theorem SetActiveUserPlan_cases (env : Env) (db : Database) (userID planID : String) :
    (∃ err, env.insertUserPlanErr = some err ∧
        SetActiveUserPlan env db userID planID = (("", some err), db)) ∨
      (env.insertUserPlanErr = none ∧
        SetActiveUserPlan env db userID planID =
          (("", some errUnsupportedScanValsType),
            { db with
              user_plans := db.user_plans ++
                [newUserPlanRow env env.now (AddDate env.location env.now 1 0 0) userID
                  planID] })) := by
  unfold SetActiveUserPlan ScanValsContext
  cases h1 : env.insertUserPlanErr with
  | some err => exact Or.inl ⟨err, rfl, rfl⟩
  | none => exact Or.inr ⟨rfl, rfl⟩

theorem SetActiveUserPlan_user_plans (env : Env) (db : Database) (userID planID : String) :
    (SetActiveUserPlan env db userID planID).2.user_plans = db.user_plans ∨
      (SetActiveUserPlan env db userID planID).2.user_plans =
        db.user_plans ++
          [newUserPlanRow env env.now (AddDate env.location env.now 1 0 0) userID planID] := by
  rcases SetActiveUserPlan_cases env db userID planID with ⟨err, -, h'⟩ | ⟨-, h'⟩ <;> rw [h']
  · exact Or.inl rfl
  · exact Or.inr rfl

theorem SetActiveUserPlan_reference_tables (env : Env) (db : Database)
    (userID planID : String) :
    (SetActiveUserPlan env db userID planID).2.users = db.users ∧
      (SetActiveUserPlan env db userID planID).2.plans = db.plans ∧
      (SetActiveUserPlan env db userID planID).2.resource_types = db.resource_types ∧
      (SetActiveUserPlan env db userID planID).2.plan_quota_defaults =
        db.plan_quota_defaults ∧
      (SetActiveUserPlan env db userID planID).2.quotas = db.quotas := by
  rcases SetActiveUserPlan_cases env db userID planID with ⟨err, -, h'⟩ | ⟨-, h'⟩ <;>
    rw [h'] <;> exact ⟨rfl, rfl, rfl, rfl, rfl⟩

/-- The state after a call whose `INSERT` statement was executed. -/
theorem SetActiveUserPlan_inserted (env : Env) (db : Database) (userID planID : String)
    (h : env.insertUserPlanErr = none) :
    (SetActiveUserPlan env db userID planID).2 =
      { db with
        user_plans := db.user_plans ++
          [newUserPlanRow env env.now (AddDate env.location env.now 1 0 0) userID planID] } := by
  rcases SetActiveUserPlan_cases env db userID planID with ⟨err, h1, -⟩ | ⟨-, h'⟩
  · rw [h] at h1
    cases h1
  · rw [h']

/-- C10, at the failing input (every call): `SetActiveUserPlan` returns the empty string
and an error, never the id of the row; when its `INSERT` statement was executed the error is
that of `ScanValsContext` for a destination that is not a slice, although the row is then
the last row of `user_plans`, with the generated id, the user and plan passed in, start
`now` and end `now.AddDate(1, 0, 0)`. -/
theorem SetActiveUserPlan_returns_no_id (env : Env) (db : Database)
    (userID planID : String) :
    (∃ err, (SetActiveUserPlan env db userID planID).1 = ("", some err)) ∧
      (env.insertUserPlanErr = none →
        (SetActiveUserPlan env db userID planID).1 = ("", some errUnsupportedScanValsType) ∧
          ∃ row,
            (SetActiveUserPlan env db userID planID).2.user_plans = db.user_plans ++ [row] ∧
              row.id = env.newUserPlanID ∧ row.user_id = userID ∧ row.plan_id = planID ∧
              row.effective_start_date = env.now ∧
              row.effective_end_date = some (AddDate env.location env.now 1 0 0)) := by
  rcases SetActiveUserPlan_cases env db userID planID with ⟨err, h1, h'⟩ | ⟨h1, h'⟩
  · refine ⟨⟨err, by rw [h']⟩, ?_⟩
    intro h
    rw [h] at h1
    cases h1
  · refine ⟨⟨errUnsupportedScanValsType, by rw [h']⟩, ?_⟩
    intro _
    rw [h']
    exact ⟨rfl, _, rfl, rfl, rfl, rfl, rfl, rfl⟩

/-- The activation of "Basic" for "alice" on 29 February 2024 at 10:00 UTC inserts the row
"up-1", ending on 1 March 2025 at 10:00, and returns the empty string and the scan error. -/
theorem SetActiveUserPlan_returns_no_id_example :
    (SetActiveUserPlan exampleEnv exampleDB "u-alice" "p-basic").1 =
        ("", some errUnsupportedScanValsType) ∧
      (SetActiveUserPlan exampleEnv exampleDB "u-alice" "p-basic").2.user_plans.map
          (fun up => (up.id, up.effective_start_date, up.effective_end_date)) =
        [("up-1", Date 2024 2 29 10 0 0 0, some (Date 2025 3 1 10 0 0 0))] := by
  exact ⟨rfl, by decide⟩

/-! ## No rollback -/

/-- C4, as stated, fails: the activation of "Basic", a plan with a default, for "alice"
reports an error and leaves a state that is not the initial one: it holds the new
`user_plans` row, which `UserHasActivePlan` and `GetActiveUserPlan` report, and no quota
row. -/
theorem SetActiveUserPlan_not_atomic :
    (SetActiveUserPlan exampleEnv exampleDB "u-alice" "p-basic").1 =
        ("", some errUnsupportedScanValsType) ∧
      (SetActiveUserPlan exampleEnv exampleDB "u-alice" "p-basic").2 ≠ exampleDB ∧
      UserHasActivePlan (SetActiveUserPlan exampleEnv exampleDB "u-alice" "p-basic").2 none
          "alice" = (true, none) ∧
      (GetActiveUserPlan (SetActiveUserPlan exampleEnv exampleDB "u-alice" "p-basic").2
          (Date 2024 3 1 0 0 0 0) none "alice").1.map (fun r => r.ID) = some "up-1" ∧
      (exampleDB.plan_quota_defaults.filter fun d => d.plan_id = "p-basic").length = 1 ∧
      (SetActiveUserPlan exampleEnv exampleDB "u-alice" "p-basic").2.quotas = [] := by
  refine ⟨rfl, by decide, rfl, rfl, rfl, rfl⟩

/-- C4, amended: `SetActiveUserPlan` rolls nothing back.  When its `user_plans` insert
fails, it reports that error and the state is the initial one; when it reports an error
after that insert was executed, the state on the handle it was given is the initial state
plus the new `user_plans` row, with no quota row added, and so is not the initial state. -/
theorem SetActiveUserPlan_error_keeps_row (env : Env) (db : Database)
    (userID planID : String) :
    (∀ err, env.insertUserPlanErr = some err →
        SetActiveUserPlan env db userID planID = (("", some err), db)) ∧
      (env.insertUserPlanErr = none →
        (SetActiveUserPlan env db userID planID).1.2 ≠ none →
        (SetActiveUserPlan env db userID planID).2 =
            { db with
              user_plans := db.user_plans ++
                [newUserPlanRow env env.now (AddDate env.location env.now 1 0 0) userID
                  planID] } ∧
          (SetActiveUserPlan env db userID planID).2.quotas = db.quotas ∧
          (SetActiveUserPlan env db userID planID).2 ≠ db) := by
  refine ⟨?_, ?_⟩
  · intro err herr
    rcases SetActiveUserPlan_cases env db userID planID with ⟨err', h1, h'⟩ | ⟨h1, -⟩
    · rw [herr] at h1
      cases h1
      exact h'
    · rw [herr] at h1
      cases h1
  · intro hins _
    have h := SetActiveUserPlan_inserted env db userID planID hins
    refine ⟨h, by rw [h], ?_⟩
    intro heq
    have hlen := congrArg (fun d : Database => d.user_plans.length) (h.symm.trans heq)
    simp at hlen

/-- Witness of the amended C4: the activation of "Basic" for "alice". -/
theorem SetActiveUserPlan_error_keeps_row_witness :
    (SetActiveUserPlan exampleEnv exampleDB "u-alice" "p-basic").2.user_plans.length = 1 ∧
      (SetActiveUserPlan exampleEnv exampleDB "u-alice" "p-basic").2.quotas =
        exampleDB.quotas ∧
      (SetActiveUserPlan exampleEnv exampleDB "u-alice" "p-basic").2 ≠ exampleDB := by
  obtain ⟨h1, h2, h3⟩ :=
    (SetActiveUserPlan_error_keeps_row exampleEnv exampleDB "u-alice" "p-basic").2 rfl
      (by decide)
  exact ⟨by rw [h1]; rfl, h2, h3⟩

/-! ## Overlapping assignments -/

/-- C6, as stated, fails: two activations of "bob" one second apart, from an empty
`user_plans` table, leave two rows of "bob" whose windows both satisfy
`start ≤ now < end` on 1 March 2024. -/
theorem two_active_assignments :
    exampleDB.user_plans = [] ∧
      Reachable exampleDB
        (SetActiveUserPlan exampleEnv2
          (SetActiveUserPlan exampleEnv exampleDB "u-bob" "p-basic").2 "u-bob" "p-pro").2 ∧
      activeRowCount
          (SetActiveUserPlan exampleEnv2
            (SetActiveUserPlan exampleEnv exampleDB "u-bob" "p-basic").2 "u-bob" "p-pro").2
          "u-bob" (Date 2024 3 1 0 0 0 0) = 2 ∧
      (SetActiveUserPlan exampleEnv2
          (SetActiveUserPlan exampleEnv exampleDB "u-bob" "p-basic").2 "u-bob"
          "p-pro").2.user_plans.map
          (fun up =>
            (up.user_id, decide (up.effective_start_date ≤ Date 2024 3 1 0 0 0 0),
              up.effective_end_date.map fun e => decide (Date 2024 3 1 0 0 0 0 < e))) =
        [("u-bob", true, some true), ("u-bob", true, some true)] :=
  ⟨rfl, Reachable.call _ _ _ (Reachable.call _ _ _ Reachable.start), by decide, by decide⟩

/-- C6, amended: in every state reached from an empty `user_plans` table by calls of
`SetActiveUserPlan` each made after the end of every window the user already has, at most
one row of a user has its window around any given instant. -/
theorem at_most_one_active_when_sequential (init db : Database)
    (hinit : init.user_plans = []) (hreach : ReachableSequentially init db)
    (userID : String) (t : Time) : activeRowCount db userID t ≤ 1 := by
  induction hreach with
  | start => simp [activeRowCount, hinit]
  | call env uid planID hprev hseq ih =>
    rename_i dbPrev
    rcases SetActiveUserPlan_user_plans env dbPrev uid planID with h | h
    · unfold activeRowCount at ih ⊢
      rw [h]
      exact ih
    · unfold activeRowCount at ih ⊢
      rw [h, List.filter_append, List.length_append]
      by_cases hnew :
          (decide ((newUserPlanRow env env.now (AddDate env.location env.now 1 0 0) uid planID).user_id =
              userID) &&
            sqlHolds
              (windowCondition t
                (newUserPlanRow env env.now (AddDate env.location env.now 1 0 0) uid planID))) = true
      · have hold : (dbPrev.user_plans.filter fun up =>
            decide (up.user_id = userID) && sqlHolds (windowCondition t up)) = [] := by
          rw [List.filter_eq_nil_iff]
          intro up hup hact
          simp only [Bool.and_eq_true, decide_eq_true_eq] at hact hnew
          have huid : uid = userID := hnew.1
          obtain ⟨e, he, hlt⟩ := hseq up hup (hact.1.trans huid.symm)
          have hstart : env.now ≤ t := by
            rcases (windowCondition_iff t _).mp hnew.2 with ⟨_, _, hle, _⟩ | ⟨_, hlt'⟩
            · exact hle
            · exact Nat.le_of_lt hlt'
          rcases (windowCondition_iff t up).mp hact.2 with ⟨e', he', -, hle⟩ | ⟨hnone, -⟩
          · rw [he] at he'
            cases he'
            exact absurd (Nat.lt_of_le_of_lt hle hlt) (Nat.not_lt.mpr hstart)
          · rw [he] at hnone
            cases hnone
        rw [hold]
        simp only [List.length_nil, Nat.zero_add]
        exact (List.length_filter_le _ _).trans (by simp)
      · simp only [List.filter_cons, List.filter_nil]
        split
        · rename_i hc
          exact absurd hc hnew
        · simpa using ih

/-- Witness of the amended C6: a second activation of "bob" two years after the first. -/
theorem at_most_one_active_when_sequential_witness :
    activeRowCount
        (SetActiveUserPlan exampleEnvLater
          (SetActiveUserPlan exampleEnv exampleDB "u-bob" "p-basic").2 "u-bob" "p-pro").2
        "u-bob" (Date 2026 3 1 0 0 0 0) ≤ 1 :=
  at_most_one_active_when_sequential exampleDB _ rfl
    (ReachableSequentially.call exampleEnvLater "u-bob" "p-pro"
      (ReachableSequentially.call exampleEnv "u-bob" "p-basic" ReachableSequentially.start
        (by intro up hup; cases hup))
      (by
        intro up hup _
        have hrows : (SetActiveUserPlan exampleEnv exampleDB "u-bob" "p-basic").2.user_plans =
            [newUserPlanRow exampleEnv exampleEnv.now (AddDate exampleEnv.location exampleEnv.now 1 0 0) "u-bob"
              "p-basic"] := rfl
        rw [hrows, List.mem_singleton] at hup
        subst hup
        exact ⟨AddDate exampleEnv.location exampleEnv.now 1 0 0, rfl, by decide⟩))
    "u-bob" (Date 2026 3 1 0 0 0 0)

/-! ## `UserOnPlan` -/

theorem UserOnPlan_iff (db : Database) (username planName : String) :
    UserOnPlan db none username planName = (true, none) ↔
      ∃ up ∈ db.user_plans, ∃ u ∈ db.users, ∃ p ∈ db.plans,
        up.user_id = u.id ∧ up.plan_id = p.id ∧ u.username = username ∧ p.name = planName := by
  simp only [UserOnPlan, Prod.mk.injEq, and_true, decide_eq_true_eq, gt_iff_lt,
    List.length_pos, ne_eq, List.filter_eq_nil_iff, Prod.forall, mem_joinUsersPlans,
    not_forall, Classical.not_imp, Decidable.not_not, Bool.and_eq_true]
  constructor
  · rintro ⟨up, u, p, ⟨h1, h2, h3, h4, h5⟩, h6, h7⟩
    exact ⟨up, h1, u, h2, p, h3, h4, h5, h6, h7⟩
  · rintro ⟨up, h1, u, h2, p, h3, h4, h5, h6, h7⟩
    exact ⟨up, u, p, ⟨h1, h2, h3, h4, h5⟩, h6, h7⟩

theorem UserOnPlan_snd (db : Database) (username planName : String) :
    (UserOnPlan db none username planName).2 = none := rfl

theorem UserOnPlan_congr (db db' : Database) (username planName : String)
    (h : UserOnPlan db none username planName = (true, none) ↔
      UserOnPlan db' none username planName = (true, none)) :
    UserOnPlan db none username planName = UserOnPlan db' none username planName := by
  have e : ∀ d : Database, UserOnPlan d none username planName =
      ((UserOnPlan d none username planName).1, none) := fun _ => rfl
  rw [e db, e db'] at h ⊢
  simp only [Prod.mk.injEq, and_true] at h ⊢
  exact Bool.eq_iff_iff.mpr h

theorem Reachable_extends (init db : Database) (h : Reachable init db) :
    db.users = init.users ∧ db.plans = init.plans ∧
      ∀ up ∈ init.user_plans, up ∈ db.user_plans := by
  induction h with
  | start => exact ⟨rfl, rfl, fun _ h => h⟩
  | call env uid planID hprev ih =>
    rename_i dbPrev
    obtain ⟨h1, h2, -, -, -⟩ := SetActiveUserPlan_reference_tables env dbPrev uid planID
    refine ⟨h1.trans ih.1, h2.trans ih.2.1, ?_⟩
    intro up hup
    rcases SetActiveUserPlan_user_plans env dbPrev uid planID with h | h <;> rw [h]
    · exact ih.2.2 up hup
    · exact List.mem_append_left _ (ih.2.2 up hup)

/-- C9: `UserOnPlan` returns true exactly when a `user_plans` row of the user references a
plan of that name; it takes no instant, and changing the dates of the rows does not change
its result; after a call of `SetActiveUserPlan` for a user and a plan whose `user_plans`
insert was executed (as it is in every successful activation) it returns true for that user
and plan name, and keeps returning true in every state reached by further calls of
`SetActiveUserPlan`. -/
theorem UserOnPlan_ignores_window (db : Database) (username planName : String) :
    (UserOnPlan db none username planName = (true, none) ↔
        ∃ up ∈ db.user_plans, ∃ u ∈ db.users, ∃ p ∈ db.plans,
          up.user_id = u.id ∧ up.plan_id = p.id ∧ u.username = username ∧
            p.name = planName) ∧
      (∀ (start : UserPlanRow → Time) (stop : UserPlanRow → Option Time),
        UserOnPlan
            { db with
              user_plans := db.user_plans.map fun up =>
                { up with effective_start_date := start up, effective_end_date := stop up } }
            none username planName =
          UserOnPlan db none username planName) ∧
      (∀ (env : Env) (userID planID : String) (db' : Database),
        env.insertUserPlanErr = none →
        (∃ u ∈ db.users, u.id = userID ∧ u.username = username) →
        (∃ p ∈ db.plans, p.id = planID ∧ p.name = planName) →
        Reachable (SetActiveUserPlan env db userID planID).2 db' →
        UserOnPlan db' none username planName = (true, none)) := by
  refine ⟨UserOnPlan_iff db username planName, ?_, ?_⟩
  · intro start stop
    apply UserOnPlan_congr
    rw [UserOnPlan_iff, UserOnPlan_iff]
    constructor
    · rintro ⟨up, h1, u, h2, p, h3, h4, h5, h6, h7⟩
      obtain ⟨up0, hup0, rfl⟩ := List.mem_map.mp h1
      exact ⟨up0, hup0, u, h2, p, h3, h4, h5, h6, h7⟩
    · rintro ⟨up, h1, u, h2, p, h3, h4, h5, h6, h7⟩
      exact ⟨_, List.mem_map.mpr ⟨up, h1, rfl⟩, u, h2, p, h3, h4, h5, h6, h7⟩
  · rintro env userID planID db' hins ⟨u, hu, huid, huname⟩ ⟨p, hp, hpid, hpname⟩ hreach
    have hdb := SetActiveUserPlan_inserted env db userID planID hins
    obtain ⟨h1, h2, h3⟩ := Reachable_extends _ db' hreach
    rw [UserOnPlan_iff]
    refine ⟨newUserPlanRow env env.now (AddDate env.location env.now 1 0 0) userID planID, ?_,
      u, ?_, p, ?_, huid.symm, hpid.symm, huname, hpname⟩
    · apply h3
      rw [hdb]
      exact List.mem_append_right _ (List.mem_singleton_self _)
    · rw [h1, hdb]
      exact hu
    · rw [h2, hdb]
      exact hp

/-- Witness of C9: after "Basic" is activated for "bob" on 29 February 2024, `UserOnPlan`
returns true for "bob" and "Basic", also in the state after a later activation, while on
1 March 2026 the query of `GetActiveUserPlan` yields no row in the state after the first. -/
theorem UserOnPlan_ignores_window_witness :
    UserOnPlan
        (SetActiveUserPlan exampleEnvLater
          (SetActiveUserPlan exampleEnv exampleDB "u-bob" "p-basic").2 "u-bob" "p-pro").2
        none "bob" "Basic" = (true, none) ∧
      activeUserPlanRows (SetActiveUserPlan exampleEnv exampleDB "u-bob" "p-basic").2
        (Date 2026 3 1 0 0 0 0) "bob" = [] :=
  ⟨(UserOnPlan_ignores_window exampleDB "bob" "Basic").2.2 exampleEnv "u-bob" "p-basic" _ rfl
      ⟨{ id := "u-bob", username := "bob" }, by decide, rfl, rfl⟩
      ⟨{ id := "p-basic", name := "Basic", description := "" }, by decide, rfl, rfl⟩
      (Reachable.call exampleEnvLater "u-bob" "p-pro" Reachable.start),
    by decide⟩

/-! ## The latest start wins -/

/-- C2: when at least one row of the user has its window around `now` (in particular when
two or more have), `GetActiveUserPlan` returns one of these candidates, and no candidate
starts after it, nor does any row of the user whose window contains `now` with the end
excluded; hence after two calls of `SetActiveUserPlan` for a user whose `user_plans` inserts
were executed (as they are in every successful activation), the second later than the first
and than every earlier start of the user, the row of the second call is the one returned
while its window is around `now`. -/
theorem GetActiveUserPlan_latest_start :
    (∀ (db : Database) (currTS : Time) (username : String),
        activeCandidates db currTS username ≠ [] →
        ∃ r ∈ activeCandidates db currTS username,
          GetActiveUserPlan db currTS none username = (some r, none) ∧
            (∀ r' ∈ activeCandidates db currTS username,
              r'.EffectiveStartDate ≤ r.EffectiveStartDate) ∧
            ∀ up ∈ db.user_plans, ∀ u ∈ db.users, ∀ p ∈ db.plans,
              up.user_id = u.id → up.plan_id = p.id → u.username = username →
              up.effective_start_date ≤ currTS →
              (∀ e, up.effective_end_date = some e → currTS < e) →
              (up.effective_end_date = none → up.effective_start_date < currTS) →
              up.effective_start_date ≤ r.EffectiveStartDate) ∧
      (∀ (db : Database) (env1 env2 : Env) (userID planID1 planID2 username : String)
          (currTS : Time),
        env1.insertUserPlanErr = none →
        env2.insertUserPlanErr = none →
        env1.now < env2.now →
        (∃ u ∈ db.users, u.id = userID ∧ u.username = username) →
        (∃ p ∈ db.plans, p.id = planID2) →
        (∀ up ∈ db.user_plans, ∀ u ∈ db.users, up.user_id = u.id → u.username = username →
          up.effective_start_date < env2.now) →
        env2.now ≤ currTS → currTS ≤ AddDate env2.location env2.now 1 0 0 →
        ∃ r,
          GetActiveUserPlan
              (SetActiveUserPlan env2 (SetActiveUserPlan env1 db userID planID1).2 userID
                planID2).2 currTS none username = (some r, none) ∧
            r.ID = env2.newUserPlanID ∧ r.EffectiveStartDate = env2.now ∧
            r.EffectiveEndDate = some (AddDate env2.location env2.now 1 0 0) ∧
            r.User.ID = userID ∧ r.Plan.ID = planID2) := by
  have part1 : ∀ (db : Database) (currTS : Time) (username : String),
      activeCandidates db currTS username ≠ [] →
      ∃ r ∈ activeCandidates db currTS username,
        GetActiveUserPlan db currTS none username = (some r, none) ∧
          ∀ r' ∈ activeCandidates db currTS username,
            r'.EffectiveStartDate ≤ r.EffectiveStartDate := by
    intro db currTS username hne
    rcases activeUserPlanRows_spec db currTS username with ⟨h, -⟩ | ⟨r, hr, hrows, hmax⟩
    · exact absurd h hne
    · refine ⟨r, hr, ?_, hmax⟩
      rw [GetActiveUserPlan_eq, hrows]
      rfl
  refine ⟨?_, ?_⟩
  · intro db currTS username hne
    obtain ⟨r, hr, hget, hmax⟩ := part1 db currTS username hne
    refine ⟨r, hr, hget, hmax, ?_⟩
    intro up hup u hu p hp hid hpid hname hstart hend hopen
    have hwin : sqlHolds (windowCondition currTS up) = true := by
      rw [windowCondition_iff]
      cases he : up.effective_end_date with
      | none => exact Or.inr ⟨rfl, hopen he⟩
      | some e => exact Or.inl ⟨e, rfl, hstart, Nat.le_of_lt (hend e he)⟩
    exact hmax _ ((mem_activeCandidates db currTS username _).mpr
      ⟨up, hup, u, hu, p, hp, hid, hpid, hname, hwin, rfl⟩)
  intro db env1 env2 userID planID1 planID2 username currTS hins1 hins2 hlt
    ⟨u, hu, huid, huname⟩ ⟨p, hp, hpid⟩ hold hstart hend
  have hdb1 := SetActiveUserPlan_inserted env1 db userID planID1 hins1
  have hdb2 := SetActiveUserPlan_inserted env2 (SetActiveUserPlan env1 db userID planID1).2
    userID planID2 hins2
  generalize (SetActiveUserPlan env2 (SetActiveUserPlan env1 db userID planID1).2 userID
    planID2).2 = db2 at hdb2 ⊢
  generalize (SetActiveUserPlan env1 db userID planID1).2 = db1 at hdb1 hdb2
  have husers : db2.users = db.users := by rw [hdb2, hdb1]
  have hplans : db2.plans = db.plans := by rw [hdb2, hdb1]
  have hrows : db2.user_plans =
      db.user_plans ++
          [newUserPlanRow env1 env1.now (AddDate env1.location env1.now 1 0 0) userID
            planID1] ++
        [newUserPlanRow env2 env2.now (AddDate env2.location env2.now 1 0 0) userID
          planID2] := by
    rw [hdb2, hdb1]
  have hcand : selectUserPlan
      (newUserPlanRow env2 env2.now (AddDate env2.location env2.now 1 0 0) userID planID2, u,
        p) ∈
      activeCandidates db2 currTS username := by
    rw [mem_activeCandidates]
    refine ⟨_, ?_, u, ?_, p, ?_, huid.symm, hpid.symm, huname, ?_, rfl⟩
    · rw [hrows]
      exact List.mem_append_right _ (List.mem_singleton_self _)
    · rw [husers]
      exact hu
    · rw [hplans]
      exact hp
    · rw [windowCondition_iff]
      exact Or.inl ⟨_, rfl, hstart, hend⟩
  obtain ⟨r, hr, hget, hmax⟩ := part1 db2 currTS username (List.ne_nil_of_mem hcand)
  have hge : env2.now ≤ r.EffectiveStartDate := hmax _ hcand
  obtain ⟨up, hup, u', hu', p', -, hid', hpid', hname', -, rfl⟩ :=
    (mem_activeCandidates db2 currTS username r).mp hr
  rw [husers] at hu'
  rw [hrows, List.mem_append, List.mem_append, List.mem_singleton, List.mem_singleton] at hup
  rcases hup with (hup | hup) | hup
  · exact absurd (hold up hup u' hu' hid' hname') (Nat.not_lt.mpr hge)
  · subst hup
    exact absurd hlt (Nat.not_lt.mpr hge)
  · subst hup
    exact ⟨_, hget, rfl, rfl, rfl, hid'.symm, hpid'.symm⟩

/-- Witness of C2: `SetActiveUserPlan` is called for "bob" with "Basic" and, one second
later, with "Pro"; on 1 March 2024 both windows are around `now` and the row of the second
call is returned. -/
theorem GetActiveUserPlan_latest_start_witness :
    ∃ r,
      GetActiveUserPlan
          (SetActiveUserPlan exampleEnv2
            (SetActiveUserPlan exampleEnv exampleDB "u-bob" "p-basic").2 "u-bob" "p-pro").2
          (Date 2024 3 1 0 0 0 0) none "bob" = (some r, none) ∧
        r.ID = "up-2" ∧ r.EffectiveStartDate = exampleEnv2.now ∧
        r.EffectiveEndDate = some (AddDate UTC exampleEnv2.now 1 0 0) ∧ r.User.ID = "u-bob" ∧
        r.Plan.ID = "p-pro" :=
  GetActiveUserPlan_latest_start.2 exampleDB exampleEnv exampleEnv2 "u-bob" "p-basic" "p-pro"
    "bob" (Date 2024 3 1 0 0 0 0) rfl rfl (by decide)
    ⟨{ id := "u-bob", username := "bob" }, by decide, rfl, rfl⟩
    ⟨{ id := "p-pro", name := "Pro", description := "" }, by decide, rfl⟩
    (by intro up hup; cases hup)
    (by decide) (by decide)

/-! ## Quotas after an activation -/

/-- The join condition of `UserPlanQuotas` names no table of its FROM clause, while the
reference the sibling queries would write, `quotas.resource_type_id`, names a column. -/
theorem quotaJoinColumn_of_source :
    (quotaJoinColumn (I ["t", "Quotas", "resource_type_id"])).isNone = true ∧
      (quotaJoinColumn (I ["quotas", "resource_type_id"])).isSome = true ∧
      (quotaJoinColumn (I ["resource_types", "id"])).isSome = true := by
  decide

/-- On every state and for every id, `UserPlanQuotas` returns no quota and an error. -/
theorem UserPlanQuotas_error (db : Database) (execErr : Option Error) (userPlanID : String) :
    ∃ err, UserPlanQuotas db execErr userPlanID = ([], some err) := by
  cases execErr with
  | some err => exact ⟨err, rfl⟩
  | none => exact ⟨errMissingFromClauseEntry, rfl⟩

/-- C5, at the failing input (every call): `SetActiveUserPlan` returns the empty string and
an error and adds no quota row, also when the plan has defaults, and `UserPlanQuotas`, on
the state the call leaves and for any id, returns no quota and an error; on the example,
plan "Basic" has one default and the `quotas` table stays empty after its activation for
"alice". -/
theorem UserPlanQuotas_after_activation_fails (env : Env) (db : Database)
    (userID planID : String) (execErr : Option Error) (userPlanID : String) :
    (∃ err, (SetActiveUserPlan env db userID planID).1 = ("", some err)) ∧
      (SetActiveUserPlan env db userID planID).2.quotas = db.quotas ∧
      (∃ err,
        UserPlanQuotas (SetActiveUserPlan env db userID planID).2 execErr userPlanID =
          ([], some err)) ∧
      (exampleDB.plan_quota_defaults.filter fun d => d.plan_id = "p-basic").length = 1 ∧
      (SetActiveUserPlan exampleEnv exampleDB "u-alice" "p-basic").2.quotas = [] ∧
      UserPlanQuotas (SetActiveUserPlan exampleEnv exampleDB "u-alice" "p-basic").2 none
          "up-1" = ([], some errMissingFromClauseEntry) := by
  refine ⟨?_, (SetActiveUserPlan_reference_tables env db userID planID).2.2.2.2,
    UserPlanQuotas_error _ execErr userPlanID, rfl, rfl, rfl⟩
  rcases SetActiveUserPlan_cases env db userID planID with ⟨err, -, h'⟩ | ⟨-, h'⟩
  · exact ⟨err, by rw [h']⟩
  · exact ⟨errUnsupportedScanValsType, by rw [h']⟩

/-! ## `AddQuotaHandler` -/

/-- C7, at the failing input: on a request whose `Quota` is absent, or whose `Quota` has no
`ResourceType`, the handler ends in a nil-pointer dereference before any ledger call and
before any call of `Respond`: no reply is sent. -/
theorem AddQuotaHandler_absent_field_no_reply {σ : Type} (L : Ledger σ)
    (respond : String → qms.QuotaResponse → Option Error) (s : σ) (subject reply : String)
    (value : QuotaValue) (subscriptionID : String) :
    (AddQuotaHandler L respond s subject reply { Quota := none }).sent = [] ∧
      (AddQuotaHandler L respond s subject reply { Quota := none }).panicked = true ∧
      (AddQuotaHandler L respond s subject reply
          { Quota := some
              { Quota := value, ResourceType := none, SubscriptionId := subscriptionID } }).sent =
        [] ∧
      (AddQuotaHandler L respond s subject reply
          { Quota := some
              { Quota := value, ResourceType := none,
                SubscriptionId := subscriptionID } }).panicked = true :=
  ⟨rfl, rfl, rfl, rfl⟩

/-- On a request whose `Quota` and `ResourceType` are present, whatever the outcomes of the
ledger calls and of `Respond`, exactly one message is sent, to the reply address: either an
error response without quota, or a response without error that carries a quota. -/
theorem AddQuotaHandler_one_reply {σ : Type} (L : Ledger σ)
    (respond : String → qms.QuotaResponse → Option Error) (s : σ) (subject reply : String)
    (q : qms.Quota) (rt : qms.ResourceType) (hrt : q.ResourceType = some rt) :
    (AddQuotaHandler L respond s subject reply { Quota := some q }).panicked = false ∧
      ∃ response,
        (AddQuotaHandler L respond s subject reply { Quota := some q }).sent =
            [(reply, response)] ∧
          ((∃ err, response = { Error := some (NatsError err), Quota := none }) ∨
            (∃ value, response =
              { Error := none
                Quota := some
                  { Quota := value, ResourceType := q.ResourceType,
                    SubscriptionId := q.SubscriptionId } })) := by
  unfold AddQuotaHandler
  simp only [hrt]
  rcases h1 : L.GetCurrentQuota s rt.Uuid q.SubscriptionId with ⟨⟨v1, update, e1⟩, s1⟩
  cases e1 with
  | some err =>
    simp only [sendError, NewQuotaResponse]
    cases respond reply { Error := some (NatsError err), Quota := none } <;>
      exact ⟨rfl, _, rfl, Or.inl ⟨err, rfl⟩⟩
  | none =>
    simp only
    rcases h2 : L.UpsertQuota s1 update q.Quota rt.Uuid q.SubscriptionId with ⟨e2, s2⟩
    cases e2 with
    | some err =>
      simp only [sendError, NewQuotaResponse]
      cases respond reply { Error := some (NatsError err), Quota := none } <;>
        exact ⟨rfl, _, rfl, Or.inl ⟨err, rfl⟩⟩
    | none =>
      simp only
      rcases h3 : L.GetCurrentQuota s2 rt.Uuid q.SubscriptionId with ⟨⟨v3, flag3, e3⟩, s3⟩
      cases e3 with
      | some err =>
        simp only [sendError, NewQuotaResponse]
        cases respond reply { Error := some (NatsError err), Quota := none } <;>
          exact ⟨rfl, _, rfl, Or.inl ⟨err, rfl⟩⟩
      | none =>
        simp only [NewQuotaResponse]
        cases respond reply
          { Error := none
            Quota := some
              { Quota := v3, ResourceType := some rt, SubscriptionId := q.SubscriptionId } } <;>
          exact ⟨rfl, _, rfl, Or.inr ⟨v3, rfl⟩⟩

/-- C8: when the first read succeeds, the upsert called with the flag of that read and with
the requested value succeeds, and the read after it succeeds, the handler sends one
response: no error, and a quota with the resource type and subscription id of the request
and the value of the second read; so when a read after an upsert returns the upserted
value, the quota of the response is the requested one. -/
theorem AddQuotaHandler_success_response {σ : Type} (L : Ledger σ)
    (respond : String → qms.QuotaResponse → Option Error) (s : σ) (subject reply : String)
    (q : qms.Quota) (rt : qms.ResourceType) (hrt : q.ResourceType = some rt)
    (v1 : QuotaValue) (update : Bool) (s1 : σ)
    (h1 : L.GetCurrentQuota s rt.Uuid q.SubscriptionId = ((v1, update, none), s1))
    (s2 : σ) (h2 : L.UpsertQuota s1 update q.Quota rt.Uuid q.SubscriptionId = (none, s2))
    (value : QuotaValue) (flag : Bool) (s3 : σ)
    (h3 : L.GetCurrentQuota s2 rt.Uuid q.SubscriptionId = ((value, flag, none), s3)) :
    (AddQuotaHandler L respond s subject reply { Quota := some q }).sent =
        [(reply,
          { Error := none
            Quota := some
              { Quota := value, ResourceType := q.ResourceType,
                SubscriptionId := q.SubscriptionId } })] ∧
      (AddQuotaHandler L respond s subject reply { Quota := some q }).ledger = s3 ∧
      (AddQuotaHandler L respond s subject reply { Quota := some q }).panicked = false ∧
      ((∀ (s : σ) (update : Bool) (v : QuotaValue) (resourceTypeID subscriptionID : String)
            (s' : σ),
          L.UpsertQuota s update v resourceTypeID subscriptionID = (none, s') →
          ∃ flag s'', L.GetCurrentQuota s' resourceTypeID subscriptionID =
            ((v, flag, none), s'')) →
        value = q.Quota) := by
  have hrun : AddQuotaHandler L respond s subject reply { Quota := some q } =
      match respond reply
          { Error := none
            Quota := some
              { Quota := value, ResourceType := q.ResourceType,
                SubscriptionId := q.SubscriptionId } } with
      | some err =>
        { ledger := s3
          sent := [(reply,
            { Error := none
              Quota := some
                { Quota := value, ResourceType := q.ResourceType,
                  SubscriptionId := q.SubscriptionId } })]
          logged := [err], panicked := false }
      | none =>
        { ledger := s3
          sent := [(reply,
            { Error := none
              Quota := some
                { Quota := value, ResourceType := q.ResourceType,
                  SubscriptionId := q.SubscriptionId } })]
          logged := [], panicked := false } := by
    unfold AddQuotaHandler
    simp only [hrt, h1, h2, h3, NewQuotaResponse]
  rw [hrun]
  refine ⟨?_, ?_, ?_, ?_⟩
  · cases respond reply
      { Error := none
        Quota := some
          { Quota := value, ResourceType := q.ResourceType,
            SubscriptionId := q.SubscriptionId } } <;> rfl
  · cases respond reply
      { Error := none
        Quota := some
          { Quota := value, ResourceType := q.ResourceType,
            SubscriptionId := q.SubscriptionId } } <;> rfl
  · cases respond reply
      { Error := none
        Quota := some
          { Quota := value, ResourceType := q.ResourceType,
            SubscriptionId := q.SubscriptionId } } <;> rfl
  · intro hread
    obtain ⟨flag', s'', h⟩ := hread s1 update q.Quota rt.Uuid q.SubscriptionId s2 h2
    rw [h3] at h
    simp only [Prod.mk.injEq] at h
    exact h.1.1

/-- Witness of C8: on the state that the activation of "Basic" for "alice" leaves, a
request to set the quota of "cpu.hours" to 2000 is answered with quota 2000 and the resource
type and subscription id of the request. -/
theorem AddQuotaHandler_success_response_witness :
    (AddQuotaHandler (tableLedger "q-2" 0) (fun _ _ => none)
        (SetActiveUserPlan exampleEnv exampleDB "u-alice" "p-basic").2 "qms.quota.add" "inbox"
        { Quota := some
            { Quota := 2000
              ResourceType := some { Uuid := "rt-cpu", Name := "cpu.hours", Unit := "cpu hours" }
              SubscriptionId := "up-1" } }).sent =
      [("inbox",
        { Error := none
          Quota := some
            { Quota := 2000
              ResourceType := some { Uuid := "rt-cpu", Name := "cpu.hours", Unit := "cpu hours" }
              SubscriptionId := "up-1" } })] :=
  (AddQuotaHandler_success_response (tableLedger "q-2" 0) (fun _ _ => none)
    (SetActiveUserPlan exampleEnv exampleDB "u-alice" "p-basic").2 "qms.quota.add" "inbox"
    { Quota := 2000
      ResourceType := some { Uuid := "rt-cpu", Name := "cpu.hours", Unit := "cpu hours" }
      SubscriptionId := "up-1" }
    { Uuid := "rt-cpu", Name := "cpu.hours", Unit := "cpu hours" } rfl
    0 false _ rfl _ rfl 2000 true _ rfl).1

end Subscriptions
